import Mathlib

/-!
Shallow embedding of vulkano's `AutoCommandBufferBuilder`
(src/vulkano/src/command_buffer/auto.rs).

The raw encoding layer (`SyncCommandBufferBuilder`) is external to the core; it is
modelled as a recording double: a trace (list) of the commands forwarded to it.
External validators (`command_buffer::validity`) and the `StateCacher` are repository
code not under `src/`; where a claim depends on them they are modelled from the spec,
each with a doc comment saying so.
-/

namespace Vulkano

/-- Subpass contents selector, from `command_buffer::sys::SubpassContents`. -/
inductive SubpassContents
  | Inline
  | SecondaryCommandBuffers
deriving DecidableEq, Repr

/-- Index type of an index buffer (`I::ty()` in the source). -/
inductive IndexType
  | U16
  | U32
deriving DecidableEq, Repr

/-- Image layouts, from `image::ImageLayout`. Only `TransferDstOptimal` is used by the
operations embedded here. -/
inductive ImageLayout
  | Undefined
  | General
  | ColorAttachmentOptimal
  | DepthStencilAttachmentOptimal
  | DepthStencilReadOnlyOptimal
  | ShaderReadOnlyOptimal
  | TransferSrcOptimal
  | TransferDstOptimal
  | Preinitialized
  | PresentSrc
deriving DecidableEq, Repr

/-- Clear values, from `format::ClearValue`. The numeric payloads (float/int vectors)
are irrelevant to every control-flow decision in `auto.rs`, which only matches on the
variant, so they are abstracted away. -/
inductive ClearValue
  | vNone
  | vFloat
  | vInt
  | vUint
  | vDepth
  | vStencil
  | vDepthStencil
deriving DecidableEq, Repr

/-- Region of a color-image clear, from
`command_buffer::sys::UnsafeCommandBufferBuilderColorImageClear`. -/
structure UnsafeCommandBufferBuilderColorImageClear where
  base_mip_level : Nat
  level_count : Nat
  base_array_layer : Nat
  layer_count : Nat
deriving DecidableEq, Repr

/-- Commands forwarded to the raw encoder (`self.inner.…` calls in `auto.rs`), with
resources identified by `Nat` identities. -/
inductive Cmd
  | beginRenderPass (fb : Nat) (contents : SubpassContents) (clear_values : List ClearValue)
  | nextSubpassCmd (contents : SubpassContents)
  | endRenderPassCmd
  | bindPipelineCompute (pipeline : Nat)
  | bindPipelineGraphics (pipeline : Nat)
  | bindIndexBufferCmd (buffer : Nat) (ty : IndexType)
  | pushConstantsCmd (pipeline stages offset size : Nat)
  | setLineWidth (w : Nat)
  | setViewport (first : Nat) (vs : List Nat)
  | setScissor (first : Nat) (ss : List Nat)
  | bindDescriptorSetsCmd (gfx : Bool) (pipeline : Nat) (sets : List Nat)
  | bindVertexBuffersCmd (buffers : List Nat)
  | drawCmd (vertex_count instance_count first_vertex first_instance : Nat)
  | drawIndexedCmd (index_count instance_count first_index vertex_offset first_instance : Nat)
  | drawIndirectCmd (buffer draw_count stride : Nat)
  | dispatchCmd (x y z : Nat)
  | copyBufferCmd (src dst : Nat) (regions : List (Nat × Nat × Nat))
  | clearColorImageCmd (image : Nat) (layout : ImageLayout) (color : ClearValue)
      (regions : List UnsafeCommandBufferBuilderColorImageClear)
  | fillBufferCmd (buffer : Nat) (data : Nat)
  | updateBufferCmd (buffer : Nat)
deriving DecidableEq, Repr

/-- Dynamic state requested with a draw, from `command_buffer::DynamicState`.
The line-width float and the viewport/scissor values are abstracted to `Nat`
identities; `auto.rs` and the cache only copy and compare them. -/
structure DynamicState where
  line_width : Option Nat
  viewports : Option (List Nat)
  scissors : Option (List Nat)
deriving DecidableEq, Repr

/-- Outcome of a cache query, from `command_buffer::StateCacherOutcome`. -/
inductive StateCacherOutcome
  | NeedChange
  | AlreadyOk
deriving DecidableEq, Repr

/-- Modelled from the spec: `StateCacher` lives in `command_buffer::cache`, not under
`src/`. Per the spec it holds the last-bound graphics-pipeline identity, last-bound
compute-pipeline identity, last-bound index-buffer identity plus index type, and the
last-applied dynamic-state fields (line width, viewport set, scissor set). -/
structure StateCacher where
  compute_pipeline : Option Nat
  graphics_pipeline : Option Nat
  index_buffer : Option (Nat × IndexType)
  line_width : Option Nat
  viewports : Option (List Nat)
  scissors : Option (List Nat)
deriving DecidableEq, Repr

/-- Modelled from the spec: the cache is invalidated entirely on recorder creation. -/
def StateCacher.new : StateCacher :=
  { compute_pipeline := none, graphics_pipeline := none, index_buffer := none,
    line_width := none, viewports := none, scissors := none }

/-- Modelled from the spec: a pipeline bind note compares by resource identity and
returns `NeedChange` exactly when the identity differs from the cached one, recording
the new identity. Compute-pipeline variant. -/
def StateCacher.bind_compute_pipeline (c : StateCacher) (pid : Nat) :
    StateCacherOutcome × StateCacher :=
  if c.compute_pipeline = some pid then (StateCacherOutcome.AlreadyOk, c)
  else (StateCacherOutcome.NeedChange, { c with compute_pipeline := some pid })

/-- Modelled from the spec: graphics-pipeline variant of the identity-compared bind note. -/
def StateCacher.bind_graphics_pipeline (c : StateCacher) (pid : Nat) :
    StateCacherOutcome × StateCacher :=
  if c.graphics_pipeline = some pid then (StateCacherOutcome.AlreadyOk, c)
  else (StateCacherOutcome.NeedChange, { c with graphics_pipeline := some pid })

/-- Modelled from the spec: index-buffer bind note, compared by buffer identity plus
index type. -/
def StateCacher.bind_index_buffer (c : StateCacher) (bid : Nat) (ty : IndexType) :
    StateCacherOutcome × StateCacher :=
  if c.index_buffer = some (bid, ty) then (StateCacherOutcome.AlreadyOk, c)
  else (StateCacherOutcome.NeedChange, { c with index_buffer := some (bid, ty) })

/-- Modelled from the spec: `filter_dynamic_state(requested)` returns the subset of the
requested dynamic-state fields that changed with respect to the cache, and records the
new current state for the fields that were requested. -/
def StateCacher.dynamic_state (c : StateCacher) (d : DynamicState) :
    DynamicState × StateCacher :=
  let lw : Option Nat := match d.line_width with
    | some w => if c.line_width = some w then none else some w
    | none => none
  let vp : Option (List Nat) := match d.viewports with
    | some v => if c.viewports = some v then none else some v
    | none => none
  let sc : Option (List Nat) := match d.scissors with
    | some s => if c.scissors = some s then none else some s
    | none => none
  (⟨lw, vp, sc⟩,
   { c with
     line_width := match d.line_width with | some w => some w | none => c.line_width,
     viewports := match d.viewports with | some v => some v | none => c.viewports,
     scissors := match d.scissors with | some s => some s | none => c.scissors })

/-- The recorder, from `AutoCommandBufferBuilder` in `auto.rs`: the raw encoder
(`inner`) as a command trace, the state cacher, the remaining-subpass counter
(`subpasses_remaining`), and the two flags `secondary_cb` and `subpass_secondary`. -/
structure AutoCommandBufferBuilder where
  trace : List Cmd
  state_cacher : StateCacher
  subpasses_remaining : Option Nat
  secondary_cb : Bool
  subpass_secondary : Bool
deriving DecidableEq, Repr

/-- `AutoCommandBufferBuilder::new`: primary recorder, outside any render pass, fresh
cache, empty encoder. (Pool allocation and its `OomError` are external.) -/
def AutoCommandBufferBuilder.new : AutoCommandBufferBuilder :=
  { trace := [], state_cacher := StateCacher.new, subpasses_remaining := none,
    secondary_cb := false, subpass_secondary := false }

/-- Context errors, from `AutoCommandBufferBuilderContextError` in `auto.rs`. -/
inductive AutoCommandBufferBuilderContextError
  | ForbiddenInSecondary
  | ForbiddenInsideRenderPass
  | ForbiddenOutsideRenderPass
  | NumSubpassesMismatch
  | WrongSubpassType
deriving DecidableEq, Repr

/-- Error of the raw encoding layer (`SyncCommandBufferBuilderError`); external, never
produced by the trace double but kept so the per-operation error unions have the shape
of the source. -/
inductive SyncCommandBufferBuilderError
  | Conflict
deriving DecidableEq, Repr

/-- Validation error of `check_clear_color_image`. -/
inductive CheckClearColorImageError
  | OutOfRange
deriving DecidableEq, Repr

/-- Validation error of `check_copy_buffer`. -/
inductive CheckCopyBufferError
  | TypeMismatch
deriving DecidableEq, Repr

/-- Validation error of `check_push_constants_validity`. -/
inductive CheckPushConstantsValidityError
  | MissingPushConstants
deriving DecidableEq, Repr

/-- Validation error of `check_descriptor_sets_validity`. -/
inductive CheckDescriptorSetsValidityError
  | IncompatibleDescriptorSets
deriving DecidableEq, Repr

/-- Validation error of `check_dispatch`. -/
inductive CheckDispatchError
  | UnsupportedDimensions
deriving DecidableEq, Repr

/-- Validation error of `check_dynamic_state_validity`. -/
inductive CheckDynamicStateValidityError
  | InvalidDynamicState
deriving DecidableEq, Repr

/-- Validation error of `check_vertex_buffers`. -/
inductive CheckVertexBufferError
  | VertexBufferRejected
deriving DecidableEq, Repr

/-- Validation error of `check_index_buffer`. -/
inductive CheckIndexBufferError
  | IndexBufferRejected
deriving DecidableEq, Repr

/-- Validation error of `check_update_buffer`. -/
inductive CheckUpdateBufferError
  | WrongAlignment
deriving DecidableEq, Repr

/-- `BuildError` from the `err_gen!` expansion in `auto.rs`. -/
inductive BuildError
  | AutoCommandBufferBuilderContextError (e : AutoCommandBufferBuilderContextError)
  | OomError
deriving DecidableEq, Repr

/-- `BeginRenderPassError` from the `err_gen!` expansion in `auto.rs`. -/
inductive BeginRenderPassError
  | AutoCommandBufferBuilderContextError (e : AutoCommandBufferBuilderContextError)
  | SyncCommandBufferBuilderError (e : SyncCommandBufferBuilderError)
deriving DecidableEq, Repr

/-- `ClearColorImageError` from the `err_gen!` expansion in `auto.rs`. -/
inductive ClearColorImageError
  | AutoCommandBufferBuilderContextError (e : AutoCommandBufferBuilderContextError)
  | CheckClearColorImageError (e : CheckClearColorImageError)
  | SyncCommandBufferBuilderError (e : SyncCommandBufferBuilderError)
deriving DecidableEq, Repr

/-- `CopyBufferError` from the `err_gen!` expansion in `auto.rs`. -/
inductive CopyBufferError
  | AutoCommandBufferBuilderContextError (e : AutoCommandBufferBuilderContextError)
  | CheckCopyBufferError (e : CheckCopyBufferError)
  | SyncCommandBufferBuilderError (e : SyncCommandBufferBuilderError)
deriving DecidableEq, Repr

/-- `DispatchError` from the `err_gen!` expansion in `auto.rs`. -/
inductive DispatchError
  | AutoCommandBufferBuilderContextError (e : AutoCommandBufferBuilderContextError)
  | CheckPushConstantsValidityError (e : CheckPushConstantsValidityError)
  | CheckDescriptorSetsValidityError (e : CheckDescriptorSetsValidityError)
  | CheckDispatchError (e : CheckDispatchError)
  | SyncCommandBufferBuilderError (e : SyncCommandBufferBuilderError)
deriving DecidableEq, Repr

/-- `DrawError` from the `err_gen!` expansion in `auto.rs`. -/
inductive DrawError
  | AutoCommandBufferBuilderContextError (e : AutoCommandBufferBuilderContextError)
  | CheckDynamicStateValidityError (e : CheckDynamicStateValidityError)
  | CheckPushConstantsValidityError (e : CheckPushConstantsValidityError)
  | CheckDescriptorSetsValidityError (e : CheckDescriptorSetsValidityError)
  | CheckVertexBufferError (e : CheckVertexBufferError)
  | SyncCommandBufferBuilderError (e : SyncCommandBufferBuilderError)
deriving DecidableEq, Repr

/-- `DrawIndexedError` from the `err_gen!` expansion in `auto.rs`. -/
inductive DrawIndexedError
  | AutoCommandBufferBuilderContextError (e : AutoCommandBufferBuilderContextError)
  | CheckDynamicStateValidityError (e : CheckDynamicStateValidityError)
  | CheckPushConstantsValidityError (e : CheckPushConstantsValidityError)
  | CheckDescriptorSetsValidityError (e : CheckDescriptorSetsValidityError)
  | CheckVertexBufferError (e : CheckVertexBufferError)
  | CheckIndexBufferError (e : CheckIndexBufferError)
  | SyncCommandBufferBuilderError (e : SyncCommandBufferBuilderError)
deriving DecidableEq, Repr

/-- `DrawIndirectError` from the `err_gen!` expansion in `auto.rs`. -/
inductive DrawIndirectError
  | AutoCommandBufferBuilderContextError (e : AutoCommandBufferBuilderContextError)
  | CheckDynamicStateValidityError (e : CheckDynamicStateValidityError)
  | CheckPushConstantsValidityError (e : CheckPushConstantsValidityError)
  | CheckDescriptorSetsValidityError (e : CheckDescriptorSetsValidityError)
  | CheckVertexBufferError (e : CheckVertexBufferError)
  | SyncCommandBufferBuilderError (e : SyncCommandBufferBuilderError)
deriving DecidableEq, Repr

/-- `UpdateBufferError` from the `err_gen!` expansion in `auto.rs`. -/
inductive UpdateBufferError
  | AutoCommandBufferBuilderContextError (e : AutoCommandBufferBuilderContextError)
  | CheckUpdateBufferError (e : CheckUpdateBufferError)
deriving DecidableEq, Repr

/-- Result of a recording operation. `ok` carries the re-yielded recorder; `err` and
`panicked` carry the recorder exactly as it stood when it was dropped at the early
return (resp. at the `panic!`/`unimplemented!`/failed `debug_assert`), which makes
"no command was forwarded and the progress state is unchanged" statable. -/
inductive RecResult (ε : Type)
  | ok (b : AutoCommandBufferBuilder)
  | err (e : ε) (dropped : AutoCommandBufferBuilder)
  | panicked (dropped : AutoCommandBufferBuilder)
deriving DecidableEq, Repr

/-- The built command buffer (`AutoCommandBuffer`): the finalized encoder contents. -/
structure AutoCommandBuffer where
  trace : List Cmd
deriving DecidableEq, Repr

/-- Result of `build`. -/
inductive BuildResult
  | ok (cb : AutoCommandBuffer)
  | err (e : BuildError) (dropped : AutoCommandBufferBuilder)
deriving DecidableEq, Repr

/-- A framebuffer as seen by `auto.rs`: an identity and `num_subpasses()`. -/
structure Framebuffer where
  fb_id : Nat
  num_subpasses : Nat
deriving DecidableEq, Repr

/-- An image as seen by `auto.rs`: identity, `dimensions().array_layers()`,
`mipmap_levels()`. -/
structure Image where
  img_id : Nat
  array_layers : Nat
  mipmap_levels : Nat
deriving DecidableEq, Repr

/-- A typed buffer as seen by `auto.rs`: identity, `size()`, and the identity of its
content type `T` (type compatibility is a compile-time constraint in the source). -/
structure Buffer where
  buf_id : Nat
  size : Nat
  content_ty : Nat
deriving DecidableEq, Repr

/-- A value whose only relevant attribute is `mem::size_of_val`. -/
structure DataVal where
  size : Nat
deriving DecidableEq, Repr

/-- One push-constant range of a pipeline layout (stage flags abstracted to `Nat`). -/
structure PushRange where
  stages : Nat
  offset : Nat
  size : Nat
deriving DecidableEq, Repr

/-- A push-constant payload; only its size matters to validation. -/
structure PushConstants where
  size : Nat
deriving DecidableEq, Repr

/-- A compute pipeline: identity, indexed push-constant ranges
(`push_constants_range(i)` may be `None` for some indices), descriptor-set layouts, and
the device dispatch limits reachable through `pipeline.device()`. -/
structure ComputePipeline where
  pl_id : Nat
  push_ranges : List (Option PushRange)
  set_layouts : List Nat
  max_dispatch : Nat × Nat × Nat
deriving DecidableEq, Repr

/-- A graphics pipeline: identity, push-constant ranges, descriptor-set layouts, and
the dynamic-state requirement check of `check_dynamic_state_validity` as an oracle
predicate (that validator is external to `src/`). -/
structure GraphicsPipeline where
  pl_id : Nat
  push_ranges : List (Option PushRange)
  set_layouts : List Nat
  dynamic_valid : DynamicState → Bool

/-- A descriptor set: identity plus the identity of its layout. -/
structure DescriptorSet where
  set_id : Nat
  layout_id : Nat
deriving DecidableEq, Repr

/-- A vertex source as decoded by the pipeline's `VertexSource` impl (external):
resolved buffers and counts, plus an oracle verdict for `check_vertex_buffers`. -/
structure VertexSourceData where
  vertex_buffers : List Nat
  vertex_count : Nat
  instance_count : Nat
  valid : Bool
deriving DecidableEq, Repr

/-- An index buffer: identity, index type, `len()`, plus an oracle verdict for the
device/usage part of `check_index_buffer`. -/
structure IndexBuffer where
  buf_id : Nat
  index_ty : IndexType
  len : Nat
  valid : Bool
deriving DecidableEq, Repr

/-- An indirect-command buffer: identity and `len()`. -/
structure IndirectBuffer where
  buf_id : Nat
  len : Nat
deriving DecidableEq, Repr

/-- Modelled from the spec: `check_clear_color_image` lives in
`command_buffer::validity`, not under `src/`; the spec requires the layer and mip
ranges to lie within the image bounds. -/
def check_clear_color_image (img : Image)
    (first_layer num_layers first_mipmap num_mipmaps : Nat) :
    Except CheckClearColorImageError Unit :=
  if first_layer + num_layers ≤ img.array_layers ∧
      first_mipmap + num_mipmaps ≤ img.mipmap_levels
  then Except.ok ()
  else Except.error CheckClearColorImageError.OutOfRange

/-- Result of `check_copy_buffer`. -/
structure CheckCopyBuffer where
  copy_size : Nat
deriving DecidableEq, Repr

/-- Modelled from the spec: `check_copy_buffer` lives in `command_buffer::validity`,
not under `src/`; the spec requires type-compatible buffers and resolves the copy
length to `min(src.size, dst.size)`. -/
def check_copy_buffer (source destination : Buffer) :
    Except CheckCopyBufferError CheckCopyBuffer :=
  if source.content_ty = destination.content_ty
  then Except.ok ⟨Nat.min source.size destination.size⟩
  else Except.error CheckCopyBufferError.TypeMismatch

/-- Modelled from the spec: `check_push_constants_validity` lives in
`command_buffer::validity`, not under `src/`; the spec requires every declared
push-constant range to be covered by the payload. -/
def check_push_constants_validity (ranges : List (Option PushRange))
    (constants : PushConstants) : Except CheckPushConstantsValidityError Unit :=
  if ranges.all (fun r => match r with
      | some pr => decide (pr.offset + pr.size ≤ constants.size)
      | none => true)
  then Except.ok ()
  else Except.error CheckPushConstantsValidityError.MissingPushConstants

/-- Modelled from the spec: `check_descriptor_sets_validity` lives in
`command_buffer::validity`, not under `src/`; the spec requires the descriptor sets to
be compatible with the pipeline layout, compared here by layout identity. -/
def check_descriptor_sets_validity (layouts : List Nat) (sets : List DescriptorSet) :
    Except CheckDescriptorSetsValidityError Unit :=
  if sets.map DescriptorSet.layout_id = layouts
  then Except.ok ()
  else Except.error CheckDescriptorSetsValidityError.IncompatibleDescriptorSets

/-- Modelled from the spec: `check_dispatch` lives in `command_buffer::validity`, not
under `src/`; the spec requires the dispatch dimensions to be within device limits. -/
def check_dispatch (max_dispatch : Nat × Nat × Nat) (dims : Nat × Nat × Nat) :
    Except CheckDispatchError Unit :=
  if dims.1 ≤ max_dispatch.1 ∧ dims.2.1 ≤ max_dispatch.2.1 ∧ dims.2.2 ≤ max_dispatch.2.2
  then Except.ok ()
  else Except.error CheckDispatchError.UnsupportedDimensions

/-- Modelled from the spec: `check_dynamic_state_validity` lives in
`command_buffer::validity`, not under `src/`; embedded as the pipeline's oracle
predicate on the requested dynamic state. -/
def check_dynamic_state_validity (pipeline : GraphicsPipeline) (dynamic : DynamicState) :
    Except CheckDynamicStateValidityError Unit :=
  if pipeline.dynamic_valid dynamic
  then Except.ok ()
  else Except.error CheckDynamicStateValidityError.InvalidDynamicState

/-- Result of `check_vertex_buffers`: resolved buffers and counts. -/
structure CheckVertexBuffer where
  vertex_buffers : List Nat
  vertex_count : Nat
  instance_count : Nat
deriving DecidableEq, Repr

/-- Modelled from the spec: `check_vertex_buffers` lives in
`command_buffer::validity`, not under `src/`; it resolves the vertex source into
buffers plus vertex/instance counts, here carried by the source with an oracle
verdict. -/
def check_vertex_buffers (_pipeline : GraphicsPipeline) (vertices : VertexSourceData) :
    Except CheckVertexBufferError CheckVertexBuffer :=
  if vertices.valid
  then Except.ok ⟨vertices.vertex_buffers, vertices.vertex_count, vertices.instance_count⟩
  else Except.error CheckVertexBufferError.VertexBufferRejected

/-- Result of `check_index_buffer`: the resolved number of indices. -/
structure CheckIndexBuffer where
  num_indices : Nat
deriving DecidableEq, Repr

/-- Modelled from the spec: `check_index_buffer` lives in `command_buffer::validity`,
not under `src/`; it resolves the index count from the buffer length, with an oracle
verdict for the device/usage checks. -/
def check_index_buffer (ib : IndexBuffer) : Except CheckIndexBufferError CheckIndexBuffer :=
  if ib.valid
  then Except.ok ⟨ib.len⟩
  else Except.error CheckIndexBufferError.IndexBufferRejected

/-- Modelled from the spec: `check_update_buffer` lives in `command_buffer::validity`,
not under `src/`; the spec names size/alignment checks only and does not constrain the
size relation between buffer and payload, so alignment of both sizes is checked. -/
def check_update_buffer (buffer : Buffer) (data : DataVal) :
    Except CheckUpdateBufferError Unit :=
  if buffer.size % 4 = 0 ∧ data.size % 4 = 0
  then Except.ok ()
  else Except.error CheckUpdateBufferError.WrongAlignment

/-- The free function `push_constants` of `auto.rs` (lines 558-581): for every index
with a declared range, one push-constants command is emitted; `None` entries are
skipped. -/
def push_constants (pl_id : Nat) (ranges : List (Option PushRange)) : List Cmd :=
  ranges.filterMap (fun r =>
    r.map (fun pr => Cmd.pushConstantsCmd pl_id pr.stages pr.offset pr.size))

/-- The free function `set_state` of `auto.rs` (lines 584-596): emits the dynamic-state
commands for exactly the fields present in the (already cache-filtered) state. -/
def set_state (dynamic : DynamicState) : List Cmd :=
  (match dynamic.line_width with
   | some w => [Cmd.setLineWidth w]
   | none => []) ++
  (match dynamic.viewports with
   | some v => [Cmd.setViewport 0 v]
   | none => []) ++
  (match dynamic.scissors with
   | some s => [Cmd.setScissor 0 s]
   | none => [])

/-- The free function `vertex_buffers` of `auto.rs` (lines 599-609): all vertex buffers
are added to one binder and submitted as a single bind command at first binding 0. -/
def vertex_buffers (vbs : List Nat) : List Cmd :=
  [Cmd.bindVertexBuffersCmd vbs]

/-- The free function `descriptor_sets` of `auto.rs` (lines 611-625): all sets are
added to one binder and submitted as a single bind command. -/
def descriptor_sets (gfx : Bool) (pl_id : Nat) (sets : List DescriptorSet) : List Cmd :=
  [Cmd.bindDescriptorSetsCmd gfx pl_id (sets.map DescriptorSet.set_id)]

/-- `ensure_outside_render_pass` (auto.rs lines 105-111). -/
def AutoCommandBufferBuilder.ensure_outside_render_pass (b : AutoCommandBufferBuilder) :
    Except AutoCommandBufferBuilderContextError Unit :=
  match b.subpasses_remaining with
  | none => Except.ok ()
  | some _ => Except.error AutoCommandBufferBuilderContextError.ForbiddenInsideRenderPass

/-- `ensure_inside_render_pass` (auto.rs lines 113-126). -/
def AutoCommandBufferBuilder.ensure_inside_render_pass (b : AutoCommandBufferBuilder)
    (secondary : Bool) : Except AutoCommandBufferBuilderContextError Unit :=
  match b.subpasses_remaining with
  | some _ =>
    if b.subpass_secondary = secondary then Except.ok ()
    else Except.error AutoCommandBufferBuilderContextError.WrongSubpassType
  | none => Except.error AutoCommandBufferBuilderContextError.ForbiddenOutsideRenderPass

/-- `build` (auto.rs lines 128-139). -/
def AutoCommandBufferBuilder.build (b : AutoCommandBufferBuilder) : BuildResult :=
  if b.secondary_cb then
    BuildResult.err (BuildError.AutoCommandBufferBuilderContextError
      AutoCommandBufferBuilderContextError.ForbiddenInSecondary) b
  else
    match b.ensure_outside_render_pass with
    | Except.error e => BuildResult.err (BuildError.AutoCommandBufferBuilderContextError e) b
    | Except.ok () => BuildResult.ok ⟨b.trace⟩

/-- `begin_render_pass` (auto.rs lines 148-172). The `debug_assert_ne!(num_subpasses, 0)`
is modelled as a failed-assertion abort, which in the source occurs before the begin
command is forwarded to the encoder. -/
def AutoCommandBufferBuilder.begin_render_pass (b : AutoCommandBufferBuilder)
    (framebuffer : Framebuffer) (secondary : Bool) (clear_values : List ClearValue) :
    RecResult BeginRenderPassError :=
  if b.secondary_cb then
    RecResult.err (BeginRenderPassError.AutoCommandBufferBuilderContextError
      AutoCommandBufferBuilderContextError.ForbiddenInSecondary) b
  else
    match b.ensure_outside_render_pass with
    | Except.error e =>
      RecResult.err (BeginRenderPassError.AutoCommandBufferBuilderContextError e) b
    | Except.ok () =>
      let contents := if secondary then SubpassContents.SecondaryCommandBuffers
                      else SubpassContents.Inline
      let num_subpasses := framebuffer.num_subpasses
      if num_subpasses = 0 then RecResult.panicked b
      else
        RecResult.ok { b with
          trace := b.trace ++ [Cmd.beginRenderPass framebuffer.fb_id contents clear_values],
          subpasses_remaining := some (num_subpasses - 1),
          subpass_secondary := secondary }

/-- `clear_color_image_dimensions` (auto.rs lines 197-224): context check, range
validation, then a `panic!` on a non-color clear value, else one clear region at the
fixed layout `TransferDstOptimal`. -/
def AutoCommandBufferBuilder.clear_color_image_dimensions (b : AutoCommandBufferBuilder)
    (image : Image) (first_layer num_layers first_mipmap num_mipmaps : Nat)
    (color : ClearValue) : RecResult ClearColorImageError :=
  match b.ensure_outside_render_pass with
  | Except.error e =>
    RecResult.err (ClearColorImageError.AutoCommandBufferBuilderContextError e) b
  | Except.ok () =>
    match check_clear_color_image image first_layer num_layers first_mipmap num_mipmaps with
    | Except.error e => RecResult.err (ClearColorImageError.CheckClearColorImageError e) b
    | Except.ok () =>
      match color with
      | ClearValue.vFloat | ClearValue.vInt | ClearValue.vUint =>
        RecResult.ok { b with
          trace := b.trace ++
            [Cmd.clearColorImageCmd image.img_id ImageLayout.TransferDstOptimal color
              [⟨first_mipmap, num_mipmaps, first_layer, num_layers⟩]] }
      | _ => RecResult.panicked b

/-- `clear_color_image` (auto.rs lines 181-189): full layer and mip ranges. -/
def AutoCommandBufferBuilder.clear_color_image (b : AutoCommandBufferBuilder)
    (image : Image) (color : ClearValue) : RecResult ClearColorImageError :=
  b.clear_color_image_dimensions image 0 image.array_layers 0 image.mipmap_levels color

/-- `copy_buffer` (auto.rs lines 230-242): one region `(0, 0, infos.copy_size)`. -/
def AutoCommandBufferBuilder.copy_buffer (b : AutoCommandBufferBuilder)
    (source destination : Buffer) : RecResult CopyBufferError :=
  match b.ensure_outside_render_pass with
  | Except.error e => RecResult.err (CopyBufferError.AutoCommandBufferBuilderContextError e) b
  | Except.ok () =>
    match check_copy_buffer source destination with
    | Except.error e => RecResult.err (CopyBufferError.CheckCopyBufferError e) b
    | Except.ok infos =>
      RecResult.ok { b with
        trace := b.trace ++
          [Cmd.copyBufferCmd source.buf_id destination.buf_id [(0, 0, infos.copy_size)]] }

/-- `dispatch` (auto.rs lines 296-320): context, validations, pipeline bind only on a
cache miss, push constants and descriptor sets always, one dispatch. -/
def AutoCommandBufferBuilder.dispatch (b : AutoCommandBufferBuilder)
    (dimensions : Nat × Nat × Nat) (pipeline : ComputePipeline)
    (sets : List DescriptorSet) (constants : PushConstants) : RecResult DispatchError :=
  match b.ensure_outside_render_pass with
  | Except.error e => RecResult.err (DispatchError.AutoCommandBufferBuilderContextError e) b
  | Except.ok () =>
    match check_push_constants_validity pipeline.push_ranges constants with
    | Except.error e => RecResult.err (DispatchError.CheckPushConstantsValidityError e) b
    | Except.ok () =>
      match check_descriptor_sets_validity pipeline.set_layouts sets with
      | Except.error e => RecResult.err (DispatchError.CheckDescriptorSetsValidityError e) b
      | Except.ok () =>
        match check_dispatch pipeline.max_dispatch dimensions with
        | Except.error e => RecResult.err (DispatchError.CheckDispatchError e) b
        | Except.ok () =>
          let r := b.state_cacher.bind_compute_pipeline pipeline.pl_id
          let bind_cmds : List Cmd := match r.1 with
            | StateCacherOutcome.NeedChange => [Cmd.bindPipelineCompute pipeline.pl_id]
            | StateCacherOutcome.AlreadyOk => []
          RecResult.ok { b with
            state_cacher := r.2,
            trace := b.trace ++ bind_cmds
              ++ push_constants pipeline.pl_id pipeline.push_ranges
              ++ descriptor_sets false pipeline.pl_id sets
              ++ [Cmd.dispatchCmd dimensions.1 dimensions.2.1 dimensions.2.2] }

/-- `draw` (auto.rs lines 322-354): inline-subpass context, validations, cached
pipeline bind, cache-filtered dynamic state, push constants / descriptor sets / vertex
buffers always, one draw with the validated vertex and instance counts. -/
def AutoCommandBufferBuilder.draw (b : AutoCommandBufferBuilder)
    (pipeline : GraphicsPipeline) (dynamic : DynamicState) (vertices : VertexSourceData)
    (sets : List DescriptorSet) (constants : PushConstants) : RecResult DrawError :=
  match b.ensure_inside_render_pass false with
  | Except.error e => RecResult.err (DrawError.AutoCommandBufferBuilderContextError e) b
  | Except.ok () =>
    match check_dynamic_state_validity pipeline dynamic with
    | Except.error e => RecResult.err (DrawError.CheckDynamicStateValidityError e) b
    | Except.ok () =>
      match check_push_constants_validity pipeline.push_ranges constants with
      | Except.error e => RecResult.err (DrawError.CheckPushConstantsValidityError e) b
      | Except.ok () =>
        match check_descriptor_sets_validity pipeline.set_layouts sets with
        | Except.error e => RecResult.err (DrawError.CheckDescriptorSetsValidityError e) b
        | Except.ok () =>
          match check_vertex_buffers pipeline vertices with
          | Except.error e => RecResult.err (DrawError.CheckVertexBufferError e) b
          | Except.ok vb_infos =>
            let r := b.state_cacher.bind_graphics_pipeline pipeline.pl_id
            let bind_cmds : List Cmd := match r.1 with
              | StateCacherOutcome.NeedChange => [Cmd.bindPipelineGraphics pipeline.pl_id]
              | StateCacherOutcome.AlreadyOk => []
            let d := r.2.dynamic_state dynamic
            RecResult.ok { b with
              state_cacher := d.2,
              trace := b.trace ++ bind_cmds
                ++ push_constants pipeline.pl_id pipeline.push_ranges
                ++ set_state d.1
                ++ descriptor_sets true pipeline.pl_id sets
                ++ vertex_buffers vb_infos.vertex_buffers
                ++ [Cmd.drawCmd vb_infos.vertex_count vb_infos.instance_count 0 0] }

/-- `draw_indexed` (auto.rs lines 356-399): like `draw`, with the index-buffer check
first among validations, a cached index-buffer bind, and one draw-indexed command with
the validated index count and instance count 1. -/
def AutoCommandBufferBuilder.draw_indexed (b : AutoCommandBufferBuilder)
    (pipeline : GraphicsPipeline) (dynamic : DynamicState) (vertices : VertexSourceData)
    (index_buffer : IndexBuffer) (sets : List DescriptorSet) (constants : PushConstants) :
    RecResult DrawIndexedError :=
  match b.ensure_inside_render_pass false with
  | Except.error e => RecResult.err (DrawIndexedError.AutoCommandBufferBuilderContextError e) b
  | Except.ok () =>
    match check_index_buffer index_buffer with
    | Except.error e => RecResult.err (DrawIndexedError.CheckIndexBufferError e) b
    | Except.ok ib_infos =>
      match check_dynamic_state_validity pipeline dynamic with
      | Except.error e => RecResult.err (DrawIndexedError.CheckDynamicStateValidityError e) b
      | Except.ok () =>
        match check_push_constants_validity pipeline.push_ranges constants with
        | Except.error e => RecResult.err (DrawIndexedError.CheckPushConstantsValidityError e) b
        | Except.ok () =>
          match check_descriptor_sets_validity pipeline.set_layouts sets with
          | Except.error e =>
            RecResult.err (DrawIndexedError.CheckDescriptorSetsValidityError e) b
          | Except.ok () =>
            match check_vertex_buffers pipeline vertices with
            | Except.error e => RecResult.err (DrawIndexedError.CheckVertexBufferError e) b
            | Except.ok vb_infos =>
              let r := b.state_cacher.bind_graphics_pipeline pipeline.pl_id
              let bind_cmds : List Cmd := match r.1 with
                | StateCacherOutcome.NeedChange => [Cmd.bindPipelineGraphics pipeline.pl_id]
                | StateCacherOutcome.AlreadyOk => []
              let ri := r.2.bind_index_buffer index_buffer.buf_id index_buffer.index_ty
              let ib_cmds : List Cmd := match ri.1 with
                | StateCacherOutcome.NeedChange =>
                  [Cmd.bindIndexBufferCmd index_buffer.buf_id index_buffer.index_ty]
                | StateCacherOutcome.AlreadyOk => []
              let d := ri.2.dynamic_state dynamic
              RecResult.ok { b with
                state_cacher := d.2,
                trace := b.trace ++ bind_cmds ++ ib_cmds
                  ++ push_constants pipeline.pl_id pipeline.push_ranges
                  ++ set_state d.1
                  ++ descriptor_sets true pipeline.pl_id sets
                  ++ vertex_buffers vb_infos.vertex_buffers
                  ++ [Cmd.drawIndexedCmd ib_infos.num_indices 1 0 0 0] }

/-- `draw_indirect` (auto.rs lines 401-442): like `draw`, with the draw count taken
from the indirect buffer's length and a stride of
`size_of::<DrawIndirectCommand>() = 16`. -/
def AutoCommandBufferBuilder.draw_indirect (b : AutoCommandBufferBuilder)
    (pipeline : GraphicsPipeline) (dynamic : DynamicState) (vertices : VertexSourceData)
    (indirect_buffer : IndirectBuffer) (sets : List DescriptorSet)
    (constants : PushConstants) : RecResult DrawIndirectError :=
  match b.ensure_inside_render_pass false with
  | Except.error e => RecResult.err (DrawIndirectError.AutoCommandBufferBuilderContextError e) b
  | Except.ok () =>
    match check_dynamic_state_validity pipeline dynamic with
    | Except.error e => RecResult.err (DrawIndirectError.CheckDynamicStateValidityError e) b
    | Except.ok () =>
      match check_push_constants_validity pipeline.push_ranges constants with
      | Except.error e => RecResult.err (DrawIndirectError.CheckPushConstantsValidityError e) b
      | Except.ok () =>
        match check_descriptor_sets_validity pipeline.set_layouts sets with
        | Except.error e =>
          RecResult.err (DrawIndirectError.CheckDescriptorSetsValidityError e) b
        | Except.ok () =>
          match check_vertex_buffers pipeline vertices with
          | Except.error e => RecResult.err (DrawIndirectError.CheckVertexBufferError e) b
          | Except.ok vb_infos =>
            let draw_count := indirect_buffer.len
            let r := b.state_cacher.bind_graphics_pipeline pipeline.pl_id
            let bind_cmds : List Cmd := match r.1 with
              | StateCacherOutcome.NeedChange => [Cmd.bindPipelineGraphics pipeline.pl_id]
              | StateCacherOutcome.AlreadyOk => []
            let d := r.2.dynamic_state dynamic
            RecResult.ok { b with
              state_cacher := d.2,
              trace := b.trace ++ bind_cmds
                ++ push_constants pipeline.pl_id pipeline.push_ranges
                ++ set_state d.1
                ++ descriptor_sets true pipeline.pl_id sets
                ++ vertex_buffers vb_infos.vertex_buffers
                ++ [Cmd.drawIndirectCmd indirect_buffer.buf_id draw_count 16] }

/-- `end_render_pass` (auto.rs lines 449-469). -/
def AutoCommandBufferBuilder.end_render_pass (b : AutoCommandBufferBuilder) :
    RecResult AutoCommandBufferBuilderContextError :=
  if b.secondary_cb then
    RecResult.err AutoCommandBufferBuilderContextError.ForbiddenInSecondary b
  else
    match b.subpasses_remaining with
    | some 0 =>
      RecResult.ok { b with
        trace := b.trace ++ [Cmd.endRenderPassCmd],
        subpasses_remaining := none }
    | none => RecResult.err AutoCommandBufferBuilderContextError.ForbiddenOutsideRenderPass b
    | some _ => RecResult.err AutoCommandBufferBuilderContextError.NumSubpassesMismatch b

/-- `next_subpass` (auto.rs lines 494-521). -/
def AutoCommandBufferBuilder.next_subpass (b : AutoCommandBufferBuilder)
    (secondary : Bool) : RecResult AutoCommandBufferBuilderContextError :=
  if b.secondary_cb then
    RecResult.err AutoCommandBufferBuilderContextError.ForbiddenInSecondary b
  else
    match b.subpasses_remaining with
    | none => RecResult.err AutoCommandBufferBuilderContextError.ForbiddenOutsideRenderPass b
    | some 0 => RecResult.err AutoCommandBufferBuilderContextError.NumSubpassesMismatch b
    | some (num + 1) =>
      let contents := if secondary then SubpassContents.SecondaryCommandBuffers
                      else SubpassContents.Inline
      RecResult.ok { b with
        subpasses_remaining := some num,
        subpass_secondary := secondary,
        trace := b.trace ++ [Cmd.nextSubpassCmd contents] }

/-- `update_buffer` (auto.rs lines 528-547): after the checks, the inline update is
emitted only when the buffer is strictly larger than the payload; otherwise the code
reaches `unimplemented!()`, modelled as an abort. -/
def AutoCommandBufferBuilder.update_buffer (b : AutoCommandBufferBuilder)
    (buffer : Buffer) (data : DataVal) : RecResult UpdateBufferError :=
  match b.ensure_outside_render_pass with
  | Except.error e => RecResult.err (UpdateBufferError.AutoCommandBufferBuilderContextError e) b
  | Except.ok () =>
    match check_update_buffer buffer data with
    | Except.error e => RecResult.err (UpdateBufferError.CheckUpdateBufferError e) b
    | Except.ok () =>
      if buffer.size > data.size then
        RecResult.ok { b with trace := b.trace ++ [Cmd.updateBufferCmd buffer.buf_id] }
      else
        RecResult.panicked b

/-- `next_subpass(false)` iterated `j` times, failing if any call fails. -/
def nextSubpassIter (b : AutoCommandBufferBuilder) : Nat → Option AutoCommandBufferBuilder
  | 0 => some b
  | j + 1 =>
    match b.next_subpass false with
    | RecResult.ok b2 => nextSubpassIter b2 j
    | RecResult.err _ _ => none
    | RecResult.panicked _ => none

/-- Recognizer for compute-pipeline bind commands. -/
def isBindPipelineCompute : Cmd → Bool
  | Cmd.bindPipelineCompute _ => true
  | _ => false

/-- Recognizer for descriptor-set bind commands. -/
def isBindDescriptorSets : Cmd → Bool
  | Cmd.bindDescriptorSetsCmd _ _ _ => true
  | _ => false

/-- Recognizer for vertex-buffer bind commands. -/
def isBindVertexBuffers : Cmd → Bool
  | Cmd.bindVertexBuffersCmd _ => true
  | _ => false

/-- Recognizer for draw commands. -/
def isDraw : Cmd → Bool
  | Cmd.drawCmd _ _ _ _ => true
  | _ => false

/-- Recognizer for indexed draw commands. -/
def isDrawIndexed : Cmd → Bool
  | Cmd.drawIndexedCmd _ _ _ _ _ => true
  | _ => false

/-- Recognizer for indirect draw commands. -/
def isDrawIndirect : Cmd → Bool
  | Cmd.drawIndirectCmd _ _ _ => true
  | _ => false

/-- Recognizer for clear values of color kind (`Float`, `Int`, `Uint`): the variants
accepted by the `match` in `clear_color_image_dimensions`. -/
def isColorValue : ClearValue → Bool
  | ClearValue.vFloat => true
  | ClearValue.vInt => true
  | ClearValue.vUint => true
  | _ => false

theorem ensure_outside_of_none (b : AutoCommandBufferBuilder)
    (h : b.subpasses_remaining = none) :
    b.ensure_outside_render_pass = Except.ok () := by
  simp [AutoCommandBufferBuilder.ensure_outside_render_pass, h]

theorem begin_render_pass_ok (b : AutoCommandBufferBuilder) (fb : Framebuffer)
    (secondary : Bool) (cv : List ClearValue) (hprim : b.secondary_cb = false)
    (hout : b.subpasses_remaining = none) (hk : fb.num_subpasses ≠ 0) :
    b.begin_render_pass fb secondary cv = RecResult.ok { b with
      trace := b.trace ++ [Cmd.beginRenderPass fb.fb_id
        (if secondary then SubpassContents.SecondaryCommandBuffers
         else SubpassContents.Inline) cv],
      subpasses_remaining := some (fb.num_subpasses - 1),
      subpass_secondary := secondary } := by
  simp [AutoCommandBufferBuilder.begin_render_pass,
    AutoCommandBufferBuilder.ensure_outside_render_pass, hprim, hout, hk]

theorem next_subpass_ok (b : AutoCommandBufferBuilder) (n : Nat) (s : Bool)
    (hprim : b.secondary_cb = false) (h : b.subpasses_remaining = some (n + 1)) :
    b.next_subpass s = RecResult.ok { b with
      subpasses_remaining := some n,
      subpass_secondary := s,
      trace := b.trace ++ [Cmd.nextSubpassCmd
        (if s then SubpassContents.SecondaryCommandBuffers
         else SubpassContents.Inline)] } := by
  simp [AutoCommandBufferBuilder.next_subpass, hprim, h]

theorem next_subpass_mismatch (b : AutoCommandBufferBuilder) (s : Bool)
    (hprim : b.secondary_cb = false) (h : b.subpasses_remaining = some 0) :
    b.next_subpass s
      = RecResult.err AutoCommandBufferBuilderContextError.NumSubpassesMismatch b := by
  simp [AutoCommandBufferBuilder.next_subpass, hprim, h]

theorem next_subpass_outside (b : AutoCommandBufferBuilder) (s : Bool)
    (hprim : b.secondary_cb = false) (h : b.subpasses_remaining = none) :
    b.next_subpass s
      = RecResult.err AutoCommandBufferBuilderContextError.ForbiddenOutsideRenderPass b := by
  simp [AutoCommandBufferBuilder.next_subpass, hprim, h]

theorem end_render_pass_zero (b : AutoCommandBufferBuilder)
    (hprim : b.secondary_cb = false) (h : b.subpasses_remaining = some 0) :
    b.end_render_pass = RecResult.ok { b with
      trace := b.trace ++ [Cmd.endRenderPassCmd],
      subpasses_remaining := none } := by
  simp [AutoCommandBufferBuilder.end_render_pass, hprim, h]

theorem end_render_pass_positive (b : AutoCommandBufferBuilder) (n : Nat)
    (hprim : b.secondary_cb = false) (h : b.subpasses_remaining = some (n + 1)) :
    b.end_render_pass
      = RecResult.err AutoCommandBufferBuilderContextError.NumSubpassesMismatch b := by
  simp [AutoCommandBufferBuilder.end_render_pass, hprim, h]

theorem end_render_pass_outside (b : AutoCommandBufferBuilder)
    (hprim : b.secondary_cb = false) (h : b.subpasses_remaining = none) :
    b.end_render_pass
      = RecResult.err AutoCommandBufferBuilderContextError.ForbiddenOutsideRenderPass b := by
  simp [AutoCommandBufferBuilder.end_render_pass, hprim, h]

theorem nextSubpassIter_spec (j : Nat) :
    ∀ (b : AutoCommandBufferBuilder) (m : Nat), b.secondary_cb = false →
      b.subpasses_remaining = some m → j ≤ m →
      ∃ b2, nextSubpassIter b j = some b2 ∧ b2.secondary_cb = false ∧
        b2.subpasses_remaining = some (m - j) := by
  induction j with
  | zero =>
    intro b m h1 h2 _
    exact ⟨b, rfl, h1, by simpa using h2⟩
  | succ j ih =>
    intro b m h1 h2 hj
    obtain ⟨m2, rfl⟩ : ∃ m2, m = m2 + 1 := ⟨m - 1, by omega⟩
    have hstep := next_subpass_ok b m2 false h1 h2
    obtain ⟨b2, hiter, hsec, hrem⟩ := ih { b with
      subpasses_remaining := some m2, subpass_secondary := false,
      trace := b.trace ++ [Cmd.nextSubpassCmd SubpassContents.Inline] } m2 h1 rfl (by omega)
    have hunf : nextSubpassIter b (j + 1) = nextSubpassIter { b with
        subpasses_remaining := some m2, subpass_secondary := false,
        trace := b.trace ++ [Cmd.nextSubpassCmd SubpassContents.Inline] } j := by
      simp [nextSubpassIter, hstep]
    refine ⟨b2, ?_, hsec, ?_⟩
    · rw [hunf]; exact hiter
    · rw [show m2 + 1 - (j + 1) = m2 - j from by omega]; exact hrem

/-- Full subpass-counting protocol of a render pass begun on recorder `b` with
framebuffer `fb`: the counter starts at `num_subpasses - 1`, each successful
`next_subpass` decrements it by one, `end_render_pass` succeeds exactly at counter 0
(returning to the outside state) and fails `NumSubpassesMismatch` at a positive
counter, `next_subpass` fails `NumSubpassesMismatch` at counter 0, and both calls fail
`ForbiddenOutsideRenderPass` outside a render pass. -/
def SubpassProtocol (b : AutoCommandBufferBuilder) (fb : Framebuffer)
    (secondary : Bool) (clear_values : List ClearValue) : Prop :=
  ∃ b0, b.begin_render_pass fb secondary clear_values = RecResult.ok b0 ∧
    b0.subpasses_remaining = some (fb.num_subpasses - 1) ∧
    (∀ (b1 : AutoCommandBufferBuilder) (n : Nat) (s : Bool),
      b1.secondary_cb = false → b1.subpasses_remaining = some (n + 1) →
      ∃ b2, b1.next_subpass s = RecResult.ok b2 ∧ b2.subpasses_remaining = some n) ∧
    (∀ j, j < fb.num_subpasses - 1 →
      ∃ bj, nextSubpassIter b0 j = some bj ∧
        bj.subpasses_remaining = some (fb.num_subpasses - 1 - j) ∧
        bj.end_render_pass
          = RecResult.err AutoCommandBufferBuilderContextError.NumSubpassesMismatch bj) ∧
    (∃ bf, nextSubpassIter b0 (fb.num_subpasses - 1) = some bf ∧
      bf.subpasses_remaining = some 0 ∧
      (∀ s, bf.next_subpass s
        = RecResult.err AutoCommandBufferBuilderContextError.NumSubpassesMismatch bf) ∧
      ∃ bend, bf.end_render_pass = RecResult.ok bend ∧
        bend.subpasses_remaining = none) ∧
    (∀ (b1 : AutoCommandBufferBuilder) (s : Bool),
      b1.secondary_cb = false → b1.subpasses_remaining = none →
      b1.next_subpass s
        = RecResult.err AutoCommandBufferBuilderContextError.ForbiddenOutsideRenderPass b1 ∧
      b1.end_render_pass
        = RecResult.err AutoCommandBufferBuilderContextError.ForbiddenOutsideRenderPass b1)

/-- C1: for every primary recorder outside a render pass and every framebuffer with
`k ≥ 1` subpasses, `begin_render_pass` sets the remaining-subpass counter to `k - 1`;
each successful `next_subpass` decrements it by one; `end_render_pass` succeeds exactly
after `k - 1` of them (returning to the outside state) and fails `NumSubpassesMismatch`
with a positive counter; `next_subpass` at counter 0 fails `NumSubpassesMismatch`; and
either call outside a render pass fails `ForbiddenOutsideRenderPass`. -/
theorem C1_subpass_protocol (b : AutoCommandBufferBuilder) (fb : Framebuffer)
    (secondary : Bool) (clear_values : List ClearValue)
    (hprim : b.secondary_cb = false) (hout : b.subpasses_remaining = none)
    (hk : 1 ≤ fb.num_subpasses) :
    SubpassProtocol b fb secondary clear_values := by
  have hk0 : fb.num_subpasses ≠ 0 := by omega
  obtain ⟨b0, hbegin, hsec0, hrem0⟩ :
      ∃ b0, b.begin_render_pass fb secondary clear_values = RecResult.ok b0 ∧
        b0.secondary_cb = false ∧
        b0.subpasses_remaining = some (fb.num_subpasses - 1) :=
    ⟨_, begin_render_pass_ok b fb secondary clear_values hprim hout hk0, hprim, rfl⟩
  refine ⟨b0, hbegin, hrem0, ?_, ?_, ?_, ?_⟩
  · intro b1 n s h1 h2
    exact ⟨_, next_subpass_ok b1 n s h1 h2, rfl⟩
  · intro j hj
    obtain ⟨bj, hit, hsec, hrem⟩ :=
      nextSubpassIter_spec j b0 (fb.num_subpasses - 1) hsec0 hrem0 (by omega)
    obtain ⟨n2, hn2⟩ : ∃ n2, fb.num_subpasses - 1 - j = n2 + 1 :=
      ⟨fb.num_subpasses - 2 - j, by omega⟩
    exact ⟨bj, hit, hrem, end_render_pass_positive bj n2 hsec (hn2 ▸ hrem)⟩
  · obtain ⟨bf, hit, hsec, hrem⟩ :=
      nextSubpassIter_spec (fb.num_subpasses - 1) b0 (fb.num_subpasses - 1) hsec0 hrem0
        (le_refl _)
    have hrem00 : bf.subpasses_remaining = some 0 := by simpa using hrem
    exact ⟨bf, hit, hrem00, fun s => next_subpass_mismatch bf s hsec hrem00,
      _, end_render_pass_zero bf hsec hrem00, rfl⟩
  · intro b1 s h1 h2
    exact ⟨next_subpass_outside b1 s h1 h2, end_render_pass_outside b1 h1 h2⟩

/-- Witness for C1: a fresh primary recorder and a framebuffer with 3 subpasses. -/
theorem C1_subpass_protocol_witness :
    AutoCommandBufferBuilder.new.secondary_cb = false ∧
    AutoCommandBufferBuilder.new.subpasses_remaining = none ∧
    1 ≤ (Framebuffer.mk 7 3).num_subpasses ∧
    SubpassProtocol AutoCommandBufferBuilder.new (Framebuffer.mk 7 3) false [] :=
  ⟨rfl, rfl, by decide,
    C1_subpass_protocol AutoCommandBufferBuilder.new (Framebuffer.mk 7 3) false []
      rfl rfl (by decide)⟩

/-- Unconditional rejection of the four structural operations on a secondary recorder:
each fails `ForbiddenInSecondary` for every parameter and every render-pass progress
state, with the recorder dropped untouched. -/
def SecondaryRejects (b : AutoCommandBufferBuilder) : Prop :=
  (∀ (fb : Framebuffer) (s : Bool) (cv : List ClearValue),
    b.begin_render_pass fb s cv
      = RecResult.err (BeginRenderPassError.AutoCommandBufferBuilderContextError
          AutoCommandBufferBuilderContextError.ForbiddenInSecondary) b) ∧
  (∀ s : Bool, b.next_subpass s
    = RecResult.err AutoCommandBufferBuilderContextError.ForbiddenInSecondary b) ∧
  (b.end_render_pass
    = RecResult.err AutoCommandBufferBuilderContextError.ForbiddenInSecondary b) ∧
  (b.build = BuildResult.err (BuildError.AutoCommandBufferBuilderContextError
      AutoCommandBufferBuilderContextError.ForbiddenInSecondary) b)

/-- C2: on every recorder whose secondary flag is set, `begin_render_pass`,
`next_subpass`, `end_render_pass` and `build` fail `ForbiddenInSecondary`
unconditionally — regardless of the render-pass progress state and before any
parameter is examined. -/
theorem C2_secondary_unconditional (b : AutoCommandBufferBuilder)
    (h : b.secondary_cb = true) : SecondaryRejects b := by
  refine ⟨fun fb s cv => ?_, fun s => ?_, ?_, ?_⟩ <;>
    simp [AutoCommandBufferBuilder.begin_render_pass, AutoCommandBufferBuilder.next_subpass,
      AutoCommandBufferBuilder.end_render_pass, AutoCommandBufferBuilder.build, h]

/-- Witness for C2: a secondary recorder, here one that is also inside a render pass
with a positive counter, to exhibit that the progress state is never examined. -/
theorem C2_secondary_unconditional_witness :
    ({ AutoCommandBufferBuilder.new with
        secondary_cb := true, subpasses_remaining := some 2 } :
      AutoCommandBufferBuilder).secondary_cb = true ∧
    SecondaryRejects { AutoCommandBufferBuilder.new with
      secondary_cb := true, subpasses_remaining := some 2 } :=
  ⟨rfl, C2_secondary_unconditional _ rfl⟩

/-- C5: for type-compatible buffers, `copy_buffer` forwards exactly one region to the
encoder, at source offset 0 and destination offset 0, of length
`min(source.size, destination.size)`. -/
theorem C5_copy_buffer_min (b : AutoCommandBufferBuilder) (source destination : Buffer)
    (hout : b.subpasses_remaining = none)
    (hty : source.content_ty = destination.content_ty) :
    b.copy_buffer source destination = RecResult.ok { b with
      trace := b.trace ++ [Cmd.copyBufferCmd source.buf_id destination.buf_id
        [(0, 0, Nat.min source.size destination.size)]] } := by
  simp [AutoCommandBufferBuilder.copy_buffer,
    AutoCommandBufferBuilder.ensure_outside_render_pass, check_copy_buffer, hout, hty]

/-- Witness for C5: a 100-unit source and a 64-unit destination of the same content
type on a fresh recorder copy exactly 64 units. -/
theorem C5_copy_buffer_min_witness :
    AutoCommandBufferBuilder.new.subpasses_remaining = none ∧
    (Buffer.mk 1 100 5).content_ty = (Buffer.mk 2 64 5).content_ty ∧
    AutoCommandBufferBuilder.new.copy_buffer (Buffer.mk 1 100 5) (Buffer.mk 2 64 5)
      = RecResult.ok { AutoCommandBufferBuilder.new with
          trace := [Cmd.copyBufferCmd 1 2 [(0, 0, 64)]] } :=
  ⟨rfl, rfl,
    C5_copy_buffer_min AutoCommandBufferBuilder.new (Buffer.mk 1 100 5) (Buffer.mk 2 64 5)
      rfl rfl⟩

/-- Contract of the color-image clear at a given call site: a non-color clear value is
an unrecoverable abort (the recorder is dropped untouched, nothing recorded), while a
color-kind value yields exactly one clear region at the fixed layout
`TransferDstOptimal`. -/
def ClearColorContract (b : AutoCommandBufferBuilder) (image : Image)
    (first_layer num_layers first_mipmap num_mipmaps : Nat) (color : ClearValue) : Prop :=
  (isColorValue color = false →
    b.clear_color_image_dimensions image first_layer num_layers first_mipmap num_mipmaps
        color = RecResult.panicked b ∧
    b.clear_color_image image color = RecResult.panicked b) ∧
  (isColorValue color = true →
    b.clear_color_image_dimensions image first_layer num_layers first_mipmap num_mipmaps
        color
      = RecResult.ok { b with trace := b.trace ++
          [Cmd.clearColorImageCmd image.img_id ImageLayout.TransferDstOptimal color
            [⟨first_mipmap, num_mipmaps, first_layer, num_layers⟩]] })

/-- C7: given a clear value that is not of color kind (not `Float`, `Int` or `Uint`),
`clear_color_image` and `clear_color_image_dimensions` abort (a contract violation,
not a typed error); given a color-kind value passing the context and range checks they
emit exactly one clear region with the fixed target layout `TransferDstOptimal`. -/
theorem C7_clear_color_contract (b : AutoCommandBufferBuilder) (image : Image)
    (first_layer num_layers first_mipmap num_mipmaps : Nat) (color : ClearValue)
    (hout : b.subpasses_remaining = none)
    (hl : first_layer + num_layers ≤ image.array_layers)
    (hm : first_mipmap + num_mipmaps ≤ image.mipmap_levels) :
    ClearColorContract b image first_layer num_layers first_mipmap num_mipmaps color := by
  constructor
  · intro hc
    constructor <;>
      cases color <;>
        simp_all [AutoCommandBufferBuilder.clear_color_image,
          AutoCommandBufferBuilder.clear_color_image_dimensions,
          AutoCommandBufferBuilder.ensure_outside_render_pass, check_clear_color_image,
          isColorValue]
  · intro hc
    cases color <;>
      simp_all [AutoCommandBufferBuilder.clear_color_image_dimensions,
        AutoCommandBufferBuilder.ensure_outside_render_pass, check_clear_color_image,
        isColorValue]

/-- Witness for C7: a depth clear value on a 4-layer, 2-level image aborts; the
instantiation also covers the color-kind branch vacuously satisfied by this value. -/
theorem C7_clear_color_contract_witness :
    AutoCommandBufferBuilder.new.subpasses_remaining = none ∧
    0 + 4 ≤ (Image.mk 3 4 2).array_layers ∧
    0 + 2 ≤ (Image.mk 3 4 2).mipmap_levels ∧
    ClearColorContract AutoCommandBufferBuilder.new (Image.mk 3 4 2) 0 4 0 2
      ClearValue.vDepth :=
  ⟨rfl, by decide, by decide,
    C7_clear_color_contract AutoCommandBufferBuilder.new (Image.mk 3 4 2) 0 4 0 2
      ClearValue.vDepth rfl (by decide) (by decide)⟩

/-- Contract of `update_buffer` after passing checks: the inline update command is
emitted exactly when the buffer is strictly larger than the payload; otherwise the
call aborts in the unimplemented path rather than completing. -/
def UpdateBufferContract (b : AutoCommandBufferBuilder) (buffer : Buffer)
    (data : DataVal) : Prop :=
  (data.size < buffer.size →
    b.update_buffer buffer data = RecResult.ok { b with
      trace := b.trace ++ [Cmd.updateBufferCmd buffer.buf_id] }) ∧
  (buffer.size ≤ data.size → b.update_buffer buffer data = RecResult.panicked b)

/-- C8: for a buffer and payload passing the context and validation checks,
`update_buffer` emits one inline update command if and only if the buffer's size is
strictly greater than the payload's size; with an equal or smaller buffer it hits the
unimplemented path (an abort, not a normal completion). -/
theorem C8_update_buffer_strict (b : AutoCommandBufferBuilder) (buffer : Buffer)
    (data : DataVal) (hout : b.subpasses_remaining = none)
    (hcheck : check_update_buffer buffer data = Except.ok ()) :
    UpdateBufferContract b buffer data := by
  constructor
  · intro hlt
    simp [AutoCommandBufferBuilder.update_buffer,
      AutoCommandBufferBuilder.ensure_outside_render_pass, hout, hcheck, hlt]
  · intro hle
    have hngt : ¬ buffer.size > data.size := by omega
    simp [AutoCommandBufferBuilder.update_buffer,
      AutoCommandBufferBuilder.ensure_outside_render_pass, hout, hcheck, hngt]

/-- Witness for C8: an 8-byte buffer with a 4-byte aligned payload on a fresh
recorder. -/
theorem C8_update_buffer_strict_witness :
    AutoCommandBufferBuilder.new.subpasses_remaining = none ∧
    check_update_buffer (Buffer.mk 1 8 0) (DataVal.mk 4) = Except.ok () ∧
    UpdateBufferContract AutoCommandBufferBuilder.new (Buffer.mk 1 8 0) (DataVal.mk 4) :=
  ⟨rfl, rfl,
    C8_update_buffer_strict AutoCommandBufferBuilder.new (Buffer.mk 1 8 0) (DataVal.mk 4)
      rfl rfl⟩

/-- Outcome of `begin_render_pass` as a function of the framebuffer's subpass count on
a primary recorder outside a render pass: zero subpasses abort before anything is
recorded (the recorder is dropped exactly as it was), a positive count records one
begin-pass command with the given clear values and sets the counter to count − 1. -/
def BeginValidatesSubpassCount (b : AutoCommandBufferBuilder) (fb : Framebuffer)
    (secondary : Bool) (cv : List ClearValue) : Prop :=
  (fb.num_subpasses = 0 → b.begin_render_pass fb secondary cv = RecResult.panicked b) ∧
  (0 < fb.num_subpasses →
    b.begin_render_pass fb secondary cv = RecResult.ok { b with
      trace := b.trace ++ [Cmd.beginRenderPass fb.fb_id
        (if secondary then SubpassContents.SecondaryCommandBuffers
         else SubpassContents.Inline) cv],
      subpasses_remaining := some (fb.num_subpasses - 1),
      subpass_secondary := secondary })

/-- C9: on a primary recorder outside a render pass, `begin_render_pass` checks that
the framebuffer's subpass count is strictly positive before forwarding the begin-pass
command and setting the counter to count − 1; with 0 subpasses it rejects (aborts)
without recording anything. -/
theorem C9_begin_subpass_count (b : AutoCommandBufferBuilder) (fb : Framebuffer)
    (secondary : Bool) (cv : List ClearValue) (hprim : b.secondary_cb = false)
    (hout : b.subpasses_remaining = none) :
    BeginValidatesSubpassCount b fb secondary cv := by
  constructor
  · intro h0
    simp [AutoCommandBufferBuilder.begin_render_pass,
      AutoCommandBufferBuilder.ensure_outside_render_pass, hprim, hout, h0]
  · intro hpos
    exact begin_render_pass_ok b fb secondary cv hprim hout (by omega)

/-- Witness for C9: a fresh primary recorder and a framebuffer declaring 0 subpasses. -/
theorem C9_begin_subpass_count_witness :
    AutoCommandBufferBuilder.new.secondary_cb = false ∧
    AutoCommandBufferBuilder.new.subpasses_remaining = none ∧
    BeginValidatesSubpassCount AutoCommandBufferBuilder.new (Framebuffer.mk 9 0) false [] :=
  ⟨rfl, rfl,
    C9_begin_subpass_count AutoCommandBufferBuilder.new (Framebuffer.mk 9 0) false []
      rfl rfl⟩

/-- Error atomicity of the subpass-advance and pass-end operations: whenever
`next_subpass` or `end_render_pass` returns an error, the error is one of the three
context errors, nothing was forwarded to the encoder, and the dropped recorder's
render-pass progress state (counter and subpass-kind flag) is exactly the pre-call
state. -/
def ErrorPreservesState (b : AutoCommandBufferBuilder) (s : Bool) : Prop :=
  (∀ (e : AutoCommandBufferBuilderContextError) (b2 : AutoCommandBufferBuilder),
    b.next_subpass s = RecResult.err e b2 →
    b2.trace = b.trace ∧ b2.subpasses_remaining = b.subpasses_remaining ∧
    b2.subpass_secondary = b.subpass_secondary ∧ b2 = b ∧
    (e = AutoCommandBufferBuilderContextError.ForbiddenInSecondary ∨
     e = AutoCommandBufferBuilderContextError.ForbiddenOutsideRenderPass ∨
     e = AutoCommandBufferBuilderContextError.NumSubpassesMismatch)) ∧
  (∀ (e : AutoCommandBufferBuilderContextError) (b2 : AutoCommandBufferBuilder),
    b.end_render_pass = RecResult.err e b2 →
    b2.trace = b.trace ∧ b2.subpasses_remaining = b.subpasses_remaining ∧
    b2.subpass_secondary = b.subpass_secondary ∧ b2 = b ∧
    (e = AutoCommandBufferBuilderContextError.ForbiddenInSecondary ∨
     e = AutoCommandBufferBuilderContextError.ForbiddenOutsideRenderPass ∨
     e = AutoCommandBufferBuilderContextError.NumSubpassesMismatch))

/-- C10: whenever `next_subpass` or `end_render_pass` returns a context error, no
command is forwarded to the encoder by that call and the render-pass progress state is
exactly as it was before the call. -/
theorem C10_errors_preserve_state (b : AutoCommandBufferBuilder) (s : Bool) :
    ErrorPreservesState b s := by
  obtain ⟨tr, sc, rem, secf, subsec⟩ := b
  constructor <;> intro e b2 h <;>
    rcases secf with _ | _ <;> rcases rem with _ | (_ | n) <;>
      simp [AutoCommandBufferBuilder.next_subpass,
        AutoCommandBufferBuilder.end_render_pass] at h <;>
      obtain ⟨he, hb⟩ := h <;> subst he <;> subst hb <;>
        exact ⟨rfl, rfl, rfl, rfl, by simp⟩

/-- Witness for C10: the concrete error of `next_subpass` on a fresh recorder outside
any render pass, shown to drop the recorder untouched. -/
theorem C10_errors_preserve_state_witness :
    AutoCommandBufferBuilder.new.trace = AutoCommandBufferBuilder.new.trace ∧
    AutoCommandBufferBuilder.new.subpasses_remaining
      = AutoCommandBufferBuilder.new.subpasses_remaining ∧
    AutoCommandBufferBuilder.new.subpass_secondary
      = AutoCommandBufferBuilder.new.subpass_secondary ∧
    AutoCommandBufferBuilder.new = AutoCommandBufferBuilder.new ∧
    (AutoCommandBufferBuilderContextError.ForbiddenOutsideRenderPass
        = AutoCommandBufferBuilderContextError.ForbiddenInSecondary ∨
     AutoCommandBufferBuilderContextError.ForbiddenOutsideRenderPass
        = AutoCommandBufferBuilderContextError.ForbiddenOutsideRenderPass ∨
     AutoCommandBufferBuilderContextError.ForbiddenOutsideRenderPass
        = AutoCommandBufferBuilderContextError.NumSubpassesMismatch) :=
  (C10_errors_preserve_state AutoCommandBufferBuilder.new false).1
    AutoCommandBufferBuilderContextError.ForbiddenOutsideRenderPass
    AutoCommandBufferBuilder.new (by decide)

theorem ensure_inside_none (b : AutoCommandBufferBuilder) (s : Bool)
    (h : b.subpasses_remaining = none) :
    b.ensure_inside_render_pass s
      = Except.error AutoCommandBufferBuilderContextError.ForbiddenOutsideRenderPass := by
  simp [AutoCommandBufferBuilder.ensure_inside_render_pass, h]

theorem ensure_inside_mismatch (b : AutoCommandBufferBuilder) (m : Nat) (s : Bool)
    (h1 : b.subpasses_remaining = some m) (h2 : b.subpass_secondary ≠ s) :
    b.ensure_inside_render_pass s
      = Except.error AutoCommandBufferBuilderContextError.WrongSubpassType := by
  simp [AutoCommandBufferBuilder.ensure_inside_render_pass, h1, h2]

theorem ensure_inside_ok (b : AutoCommandBufferBuilder) (m : Nat) (s : Bool)
    (h1 : b.subpasses_remaining = some m) (h2 : b.subpass_secondary = s) :
    b.ensure_inside_render_pass s = Except.ok () := by
  simp [AutoCommandBufferBuilder.ensure_inside_render_pass, h1, h2]

theorem draw_context_err (b : AutoCommandBufferBuilder) (pipeline : GraphicsPipeline)
    (dynamic : DynamicState) (vertices : VertexSourceData) (sets : List DescriptorSet)
    (constants : PushConstants) (e : AutoCommandBufferBuilderContextError)
    (h : b.ensure_inside_render_pass false = Except.error e) :
    b.draw pipeline dynamic vertices sets constants
      = RecResult.err (DrawError.AutoCommandBufferBuilderContextError e) b := by
  simp [AutoCommandBufferBuilder.draw, h]

theorem draw_indexed_context_err (b : AutoCommandBufferBuilder)
    (pipeline : GraphicsPipeline) (dynamic : DynamicState) (vertices : VertexSourceData)
    (ib : IndexBuffer) (sets : List DescriptorSet) (constants : PushConstants)
    (e : AutoCommandBufferBuilderContextError)
    (h : b.ensure_inside_render_pass false = Except.error e) :
    b.draw_indexed pipeline dynamic vertices ib sets constants
      = RecResult.err (DrawIndexedError.AutoCommandBufferBuilderContextError e) b := by
  simp [AutoCommandBufferBuilder.draw_indexed, h]

theorem draw_indirect_context_err (b : AutoCommandBufferBuilder)
    (pipeline : GraphicsPipeline) (dynamic : DynamicState) (vertices : VertexSourceData)
    (indb : IndirectBuffer) (sets : List DescriptorSet) (constants : PushConstants)
    (e : AutoCommandBufferBuilderContextError)
    (h : b.ensure_inside_render_pass false = Except.error e) :
    b.draw_indirect pipeline dynamic vertices indb sets constants
      = RecResult.err (DrawIndirectError.AutoCommandBufferBuilderContextError e) b := by
  simp [AutoCommandBufferBuilder.draw_indirect, h]

theorem draw_ok (b : AutoCommandBufferBuilder) (pipeline : GraphicsPipeline)
    (dynamic : DynamicState) (vertices : VertexSourceData) (sets : List DescriptorSet)
    (constants : PushConstants)
    (hctx : b.ensure_inside_render_pass false = Except.ok ())
    (hdyn : check_dynamic_state_validity pipeline dynamic = Except.ok ())
    (hpc : check_push_constants_validity pipeline.push_ranges constants = Except.ok ())
    (hsets : check_descriptor_sets_validity pipeline.set_layouts sets = Except.ok ())
    (hv : vertices.valid = true) :
    b.draw pipeline dynamic vertices sets constants = RecResult.ok { b with
      state_cacher :=
        ((b.state_cacher.bind_graphics_pipeline pipeline.pl_id).2.dynamic_state dynamic).2,
      trace := b.trace
        ++ (match (b.state_cacher.bind_graphics_pipeline pipeline.pl_id).1 with
            | StateCacherOutcome.NeedChange => [Cmd.bindPipelineGraphics pipeline.pl_id]
            | StateCacherOutcome.AlreadyOk => [])
        ++ push_constants pipeline.pl_id pipeline.push_ranges
        ++ set_state
            ((b.state_cacher.bind_graphics_pipeline pipeline.pl_id).2.dynamic_state dynamic).1
        ++ descriptor_sets true pipeline.pl_id sets
        ++ vertex_buffers vertices.vertex_buffers
        ++ [Cmd.drawCmd vertices.vertex_count vertices.instance_count 0 0] } := by
  simp [AutoCommandBufferBuilder.draw, hctx, hdyn, hpc, hsets, check_vertex_buffers, hv]

/-- Context discipline of the draw family: every variant fails
`ForbiddenOutsideRenderPass` outside a render pass, fails `WrongSubpassType`
immediately after `begin_render_pass(secondary = true)`, and passes the context check
(succeeding under valid parameters) immediately after
`begin_render_pass(secondary = false)`. -/
def DrawContext (b : AutoCommandBufferBuilder) (fb : Framebuffer) (cv : List ClearValue)
    (pipeline : GraphicsPipeline) (dynamic : DynamicState) (vertices : VertexSourceData)
    (ib : IndexBuffer) (indb : IndirectBuffer) (sets : List DescriptorSet)
    (constants : PushConstants) : Prop :=
  (b.draw pipeline dynamic vertices sets constants
    = RecResult.err (DrawError.AutoCommandBufferBuilderContextError
        AutoCommandBufferBuilderContextError.ForbiddenOutsideRenderPass) b) ∧
  (b.draw_indexed pipeline dynamic vertices ib sets constants
    = RecResult.err (DrawIndexedError.AutoCommandBufferBuilderContextError
        AutoCommandBufferBuilderContextError.ForbiddenOutsideRenderPass) b) ∧
  (b.draw_indirect pipeline dynamic vertices indb sets constants
    = RecResult.err (DrawIndirectError.AutoCommandBufferBuilderContextError
        AutoCommandBufferBuilderContextError.ForbiddenOutsideRenderPass) b) ∧
  (∃ b1, b.begin_render_pass fb true cv = RecResult.ok b1 ∧
    b1.draw pipeline dynamic vertices sets constants
      = RecResult.err (DrawError.AutoCommandBufferBuilderContextError
          AutoCommandBufferBuilderContextError.WrongSubpassType) b1 ∧
    b1.draw_indexed pipeline dynamic vertices ib sets constants
      = RecResult.err (DrawIndexedError.AutoCommandBufferBuilderContextError
          AutoCommandBufferBuilderContextError.WrongSubpassType) b1 ∧
    b1.draw_indirect pipeline dynamic vertices indb sets constants
      = RecResult.err (DrawIndirectError.AutoCommandBufferBuilderContextError
          AutoCommandBufferBuilderContextError.WrongSubpassType) b1) ∧
  (∃ b1, b.begin_render_pass fb false cv = RecResult.ok b1 ∧
    b1.ensure_inside_render_pass false = Except.ok () ∧
    ∃ b2, b1.draw pipeline dynamic vertices sets constants = RecResult.ok b2)

/-- C3: `draw` (and `draw_indexed`, `draw_indirect`) requires being inside a render
pass with current subpass kind Inline: immediately after
`begin_render_pass(secondary = false)` the context check passes (and a valid draw
succeeds), after `begin_render_pass(secondary = true)` it fails `WrongSubpassType`,
and outside any render pass it fails `ForbiddenOutsideRenderPass`. -/
theorem C3_draw_context (b : AutoCommandBufferBuilder) (fb : Framebuffer)
    (cv : List ClearValue) (pipeline : GraphicsPipeline) (dynamic : DynamicState)
    (vertices : VertexSourceData) (ib : IndexBuffer) (indb : IndirectBuffer)
    (sets : List DescriptorSet) (constants : PushConstants)
    (hprim : b.secondary_cb = false) (hout : b.subpasses_remaining = none)
    (hk : fb.num_subpasses ≠ 0)
    (hdyn : check_dynamic_state_validity pipeline dynamic = Except.ok ())
    (hpc : check_push_constants_validity pipeline.push_ranges constants = Except.ok ())
    (hsets : check_descriptor_sets_validity pipeline.set_layouts sets = Except.ok ())
    (hv : vertices.valid = true) :
    DrawContext b fb cv pipeline dynamic vertices ib indb sets constants := by
  have hfar := ensure_inside_none b false hout
  refine ⟨draw_context_err b pipeline dynamic vertices sets constants _ hfar,
    draw_indexed_context_err b pipeline dynamic vertices ib sets constants _ hfar,
    draw_indirect_context_err b pipeline dynamic vertices indb sets constants _ hfar,
    ?_, ?_⟩
  · obtain ⟨b1, hbegin, hrem, hsub⟩ :
        ∃ b1, b.begin_render_pass fb true cv = RecResult.ok b1 ∧
          b1.subpasses_remaining = some (fb.num_subpasses - 1) ∧
          b1.subpass_secondary = true :=
      ⟨_, begin_render_pass_ok b fb true cv hprim hout hk, rfl, rfl⟩
    have hwrong := ensure_inside_mismatch b1 (fb.num_subpasses - 1) false hrem
      (by simp [hsub])
    exact ⟨b1, hbegin,
      draw_context_err b1 pipeline dynamic vertices sets constants _ hwrong,
      draw_indexed_context_err b1 pipeline dynamic vertices ib sets constants _ hwrong,
      draw_indirect_context_err b1 pipeline dynamic vertices indb sets constants _ hwrong⟩
  · obtain ⟨b1, hbegin, hrem, hsub⟩ :
        ∃ b1, b.begin_render_pass fb false cv = RecResult.ok b1 ∧
          b1.subpasses_remaining = some (fb.num_subpasses - 1) ∧
          b1.subpass_secondary = false :=
      ⟨_, begin_render_pass_ok b fb false cv hprim hout hk, rfl, rfl⟩
    have hok := ensure_inside_ok b1 (fb.num_subpasses - 1) false hrem hsub
    exact ⟨b1, hbegin, hok,
      _, draw_ok b1 pipeline dynamic vertices sets constants hok hdyn hpc hsets hv⟩

/-- Witness for C3: a fresh recorder, a 2-subpass framebuffer, and concrete valid draw
parameters. -/
theorem C3_draw_context_witness :
    AutoCommandBufferBuilder.new.secondary_cb = false ∧
    AutoCommandBufferBuilder.new.subpasses_remaining = none ∧
    (Framebuffer.mk 7 2).num_subpasses ≠ 0 ∧
    check_dynamic_state_validity
      (GraphicsPipeline.mk 1 [some (PushRange.mk 1 0 4)] [10] (fun _ => true))
      (DynamicState.mk none none none) = Except.ok () ∧
    check_push_constants_validity
      (GraphicsPipeline.mk 1 [some (PushRange.mk 1 0 4)] [10] (fun _ => true)).push_ranges
      (PushConstants.mk 4) = Except.ok () ∧
    check_descriptor_sets_validity
      (GraphicsPipeline.mk 1 [some (PushRange.mk 1 0 4)] [10] (fun _ => true)).set_layouts
      [DescriptorSet.mk 20 10] = Except.ok () ∧
    (VertexSourceData.mk [30] 3 1 true).valid = true ∧
    DrawContext AutoCommandBufferBuilder.new (Framebuffer.mk 7 2) []
      (GraphicsPipeline.mk 1 [some (PushRange.mk 1 0 4)] [10] (fun _ => true))
      (DynamicState.mk none none none) (VertexSourceData.mk [30] 3 1 true)
      (IndexBuffer.mk 40 IndexType.U16 5 true) (IndirectBuffer.mk 50 2)
      [DescriptorSet.mk 20 10] (PushConstants.mk 4) :=
  ⟨rfl, rfl, by decide, rfl, rfl, rfl, rfl,
    C3_draw_context AutoCommandBufferBuilder.new (Framebuffer.mk 7 2) []
      (GraphicsPipeline.mk 1 [some (PushRange.mk 1 0 4)] [10] (fun _ => true))
      (DynamicState.mk none none none) (VertexSourceData.mk [30] 3 1 true)
      (IndexBuffer.mk 40 IndexType.U16 5 true) (IndirectBuffer.mk 50 2)
      [DescriptorSet.mk 20 10] (PushConstants.mk 4)
      rfl rfl (by decide) rfl rfl rfl rfl⟩

theorem countP_push_constants_eq_zero (p : Cmd → Bool)
    (hp : ∀ a b c d, p (Cmd.pushConstantsCmd a b c d) = false) (pid : Nat)
    (ranges : List (Option PushRange)) : (push_constants pid ranges).countP p = 0 := by
  induction ranges with
  | nil => rfl
  | cons r rs ih =>
    cases r with
    | none => simpa [push_constants, List.filterMap_cons] using ih
    | some pr =>
      simp only [push_constants, List.filterMap_cons, Option.map_some] at ih ⊢
      simp [List.countP_cons, hp, ih]

theorem countP_set_state_eq_zero (p : Cmd → Bool)
    (h1 : ∀ w, p (Cmd.setLineWidth w) = false)
    (h2 : ∀ f v, p (Cmd.setViewport f v) = false)
    (h3 : ∀ f s, p (Cmd.setScissor f s) = false) (d : DynamicState) :
    (set_state d).countP p = 0 := by
  obtain ⟨lw, vp, sc⟩ := d
  cases lw <;> cases vp <;> cases sc <;>
    simp [set_state, List.countP_cons, List.countP_append, h1, h2, h3]

theorem dispatch_ok (b : AutoCommandBufferBuilder) (dims : Nat × Nat × Nat)
    (pipeline : ComputePipeline) (sets : List DescriptorSet) (constants : PushConstants)
    (hout : b.subpasses_remaining = none)
    (hpc : check_push_constants_validity pipeline.push_ranges constants = Except.ok ())
    (hsets : check_descriptor_sets_validity pipeline.set_layouts sets = Except.ok ())
    (hdims : check_dispatch pipeline.max_dispatch dims = Except.ok ()) :
    b.dispatch dims pipeline sets constants = RecResult.ok { b with
      state_cacher := (b.state_cacher.bind_compute_pipeline pipeline.pl_id).2,
      trace := b.trace
        ++ (match (b.state_cacher.bind_compute_pipeline pipeline.pl_id).1 with
            | StateCacherOutcome.NeedChange => [Cmd.bindPipelineCompute pipeline.pl_id]
            | StateCacherOutcome.AlreadyOk => [])
        ++ push_constants pipeline.pl_id pipeline.push_ranges
        ++ descriptor_sets false pipeline.pl_id sets
        ++ [Cmd.dispatchCmd dims.1 dims.2.1 dims.2.2] } := by
  simp [AutoCommandBufferBuilder.dispatch,
    AutoCommandBufferBuilder.ensure_outside_render_pass, hout, hpc, hsets, hdims]

theorem dispatch_step (b : AutoCommandBufferBuilder) (dims : Nat × Nat × Nat)
    (pipeline : ComputePipeline) (sets : List DescriptorSet) (constants : PushConstants)
    (hout : b.subpasses_remaining = none)
    (hpc : check_push_constants_validity pipeline.push_ranges constants = Except.ok ())
    (hsets : check_descriptor_sets_validity pipeline.set_layouts sets = Except.ok ())
    (hdims : check_dispatch pipeline.max_dispatch dims = Except.ok ()) :
    ∃ b1, b.dispatch dims pipeline sets constants = RecResult.ok b1 ∧
      b1.trace.countP isBindPipelineCompute
        = b.trace.countP isBindPipelineCompute
          + (if b.state_cacher.compute_pipeline = some pipeline.pl_id then 0 else 1) ∧
      b1.state_cacher.compute_pipeline = some pipeline.pl_id ∧
      b1.subpasses_remaining = b.subpasses_remaining := by
  refine ⟨_, dispatch_ok b dims pipeline sets constants hout hpc hsets hdims, ?_, ?_, rfl⟩
  · by_cases hcc : b.state_cacher.compute_pipeline = some pipeline.pl_id <;>
      simp [StateCacher.bind_compute_pipeline, hcc, List.countP_append, List.countP_cons,
        isBindPipelineCompute, descriptor_sets,
        countP_push_constants_eq_zero isBindPipelineCompute (fun _ _ _ _ => rfl)]
  · by_cases hcc : b.state_cacher.compute_pipeline = some pipeline.pl_id <;>
      simp [StateCacher.bind_compute_pipeline, hcc]

/-- Bind-pipeline deduplication across a chain of dispatches: the first dispatch of
`p` emits a bind exactly when the cached compute-pipeline identity differs, an
immediately repeated dispatch of `p` emits no further bind, and a subsequent dispatch
of a pipeline with a different identity emits exactly one more. -/
def DispatchBindCache (b : AutoCommandBufferBuilder) (dims dims2 dims3 : Nat × Nat × Nat)
    (p q : ComputePipeline) (sets sets2 sets3 : List DescriptorSet)
    (pc pc2 pc3 : PushConstants) : Prop :=
  ∃ b1, b.dispatch dims p sets pc = RecResult.ok b1 ∧
    b1.trace.countP isBindPipelineCompute
      = b.trace.countP isBindPipelineCompute
        + (if b.state_cacher.compute_pipeline = some p.pl_id then 0 else 1) ∧
    b1.state_cacher.compute_pipeline = some p.pl_id ∧
    ∃ b2, b1.dispatch dims2 p sets2 pc2 = RecResult.ok b2 ∧
      b2.trace.countP isBindPipelineCompute = b1.trace.countP isBindPipelineCompute ∧
      b2.state_cacher.compute_pipeline = some p.pl_id ∧
      (p.pl_id ≠ q.pl_id →
        ∃ b3, b2.dispatch dims3 q sets3 pc3 = RecResult.ok b3 ∧
          b3.trace.countP isBindPipelineCompute
            = b2.trace.countP isBindPipelineCompute + 1)

/-- C4: a bind-pipeline command is forwarded by `dispatch` exactly when the state
cache reports a changed compute-pipeline identity: two consecutive dispatches with the
same pipeline identity produce exactly one bind-pipeline emission, and a dispatch with
a different identity produces a second one. -/
theorem C4_dispatch_bind_cache (b : AutoCommandBufferBuilder)
    (dims dims2 dims3 : Nat × Nat × Nat) (p q : ComputePipeline)
    (sets sets2 sets3 : List DescriptorSet) (pc pc2 pc3 : PushConstants)
    (hout : b.subpasses_remaining = none)
    (hpc1 : check_push_constants_validity p.push_ranges pc = Except.ok ())
    (hsets1 : check_descriptor_sets_validity p.set_layouts sets = Except.ok ())
    (hdims1 : check_dispatch p.max_dispatch dims = Except.ok ())
    (hpc2 : check_push_constants_validity p.push_ranges pc2 = Except.ok ())
    (hsets2 : check_descriptor_sets_validity p.set_layouts sets2 = Except.ok ())
    (hdims2 : check_dispatch p.max_dispatch dims2 = Except.ok ())
    (hpc3 : check_push_constants_validity q.push_ranges pc3 = Except.ok ())
    (hsets3 : check_descriptor_sets_validity q.set_layouts sets3 = Except.ok ())
    (hdims3 : check_dispatch q.max_dispatch dims3 = Except.ok ()) :
    DispatchBindCache b dims dims2 dims3 p q sets sets2 sets3 pc pc2 pc3 := by
  obtain ⟨b1, h1, hc1, hcache1, hrem1⟩ :=
    dispatch_step b dims p sets pc hout hpc1 hsets1 hdims1
  have hout1 : b1.subpasses_remaining = none := hrem1.trans hout
  obtain ⟨b2, h2, hc2, hcache2, hrem2⟩ :=
    dispatch_step b1 dims2 p sets2 pc2 hout1 hpc2 hsets2 hdims2
  rw [hcache1] at hc2
  simp only [if_pos rfl, Nat.add_zero] at hc2
  refine ⟨b1, h1, hc1, hcache1, b2, h2, hc2, hcache2, fun hne => ?_⟩
  have hout2 : b2.subpasses_remaining = none := hrem2.trans hout1
  obtain ⟨b3, h3, hc3, _, _⟩ :=
    dispatch_step b2 dims3 q sets3 pc3 hout2 hpc3 hsets3 hdims3
  rw [hcache2] at hc3
  simp only [Option.some.injEq, hne, if_false] at hc3
  exact ⟨b3, h3, hc3⟩

/-- Witness for C4: a fresh recorder and two compute pipelines with identities 1 and 2,
all validations passing trivially. -/
theorem C4_dispatch_bind_cache_witness :
    AutoCommandBufferBuilder.new.subpasses_remaining = none ∧
    check_push_constants_validity (ComputePipeline.mk 1 [] [] (8, 8, 8)).push_ranges
      (PushConstants.mk 0) = Except.ok () ∧
    check_descriptor_sets_validity (ComputePipeline.mk 1 [] [] (8, 8, 8)).set_layouts
      [] = Except.ok () ∧
    check_dispatch (ComputePipeline.mk 1 [] [] (8, 8, 8)).max_dispatch (1, 1, 1)
      = Except.ok () ∧
    check_push_constants_validity (ComputePipeline.mk 2 [] [] (8, 8, 8)).push_ranges
      (PushConstants.mk 0) = Except.ok () ∧
    check_descriptor_sets_validity (ComputePipeline.mk 2 [] [] (8, 8, 8)).set_layouts
      [] = Except.ok () ∧
    check_dispatch (ComputePipeline.mk 2 [] [] (8, 8, 8)).max_dispatch (1, 1, 1)
      = Except.ok () ∧
    DispatchBindCache AutoCommandBufferBuilder.new (1, 1, 1) (1, 1, 1) (1, 1, 1)
      (ComputePipeline.mk 1 [] [] (8, 8, 8)) (ComputePipeline.mk 2 [] [] (8, 8, 8))
      [] [] [] (PushConstants.mk 0) (PushConstants.mk 0) (PushConstants.mk 0) :=
  ⟨rfl, rfl, rfl, rfl, rfl, rfl, rfl,
    C4_dispatch_bind_cache AutoCommandBufferBuilder.new (1, 1, 1) (1, 1, 1) (1, 1, 1)
      (ComputePipeline.mk 1 [] [] (8, 8, 8)) (ComputePipeline.mk 2 [] [] (8, 8, 8))
      [] [] [] (PushConstants.mk 0) (PushConstants.mk 0) (PushConstants.mk 0)
      rfl rfl rfl rfl rfl rfl rfl rfl rfl rfl⟩

theorem draw_indexed_ok (b : AutoCommandBufferBuilder) (pipeline : GraphicsPipeline)
    (dynamic : DynamicState) (vertices : VertexSourceData) (ibuf : IndexBuffer)
    (sets : List DescriptorSet) (constants : PushConstants)
    (hctx : b.ensure_inside_render_pass false = Except.ok ())
    (hib : ibuf.valid = true)
    (hdyn : check_dynamic_state_validity pipeline dynamic = Except.ok ())
    (hpc : check_push_constants_validity pipeline.push_ranges constants = Except.ok ())
    (hsets : check_descriptor_sets_validity pipeline.set_layouts sets = Except.ok ())
    (hv : vertices.valid = true) :
    b.draw_indexed pipeline dynamic vertices ibuf sets constants = RecResult.ok { b with
      state_cacher :=
        (((b.state_cacher.bind_graphics_pipeline pipeline.pl_id).2.bind_index_buffer
            ibuf.buf_id ibuf.index_ty).2.dynamic_state dynamic).2,
      trace := b.trace
        ++ (match (b.state_cacher.bind_graphics_pipeline pipeline.pl_id).1 with
            | StateCacherOutcome.NeedChange => [Cmd.bindPipelineGraphics pipeline.pl_id]
            | StateCacherOutcome.AlreadyOk => [])
        ++ (match ((b.state_cacher.bind_graphics_pipeline pipeline.pl_id).2.bind_index_buffer
              ibuf.buf_id ibuf.index_ty).1 with
            | StateCacherOutcome.NeedChange =>
              [Cmd.bindIndexBufferCmd ibuf.buf_id ibuf.index_ty]
            | StateCacherOutcome.AlreadyOk => [])
        ++ push_constants pipeline.pl_id pipeline.push_ranges
        ++ set_state
            (((b.state_cacher.bind_graphics_pipeline pipeline.pl_id).2.bind_index_buffer
                ibuf.buf_id ibuf.index_ty).2.dynamic_state dynamic).1
        ++ descriptor_sets true pipeline.pl_id sets
        ++ vertex_buffers vertices.vertex_buffers
        ++ [Cmd.drawIndexedCmd ibuf.len 1 0 0 0] } := by
  simp [AutoCommandBufferBuilder.draw_indexed, hctx, check_index_buffer, hib, hdyn, hpc,
    hsets, check_vertex_buffers, hv]

theorem draw_indirect_ok (b : AutoCommandBufferBuilder) (pipeline : GraphicsPipeline)
    (dynamic : DynamicState) (vertices : VertexSourceData) (indb : IndirectBuffer)
    (sets : List DescriptorSet) (constants : PushConstants)
    (hctx : b.ensure_inside_render_pass false = Except.ok ())
    (hdyn : check_dynamic_state_validity pipeline dynamic = Except.ok ())
    (hpc : check_push_constants_validity pipeline.push_ranges constants = Except.ok ())
    (hsets : check_descriptor_sets_validity pipeline.set_layouts sets = Except.ok ())
    (hv : vertices.valid = true) :
    b.draw_indirect pipeline dynamic vertices indb sets constants = RecResult.ok { b with
      state_cacher :=
        ((b.state_cacher.bind_graphics_pipeline pipeline.pl_id).2.dynamic_state dynamic).2,
      trace := b.trace
        ++ (match (b.state_cacher.bind_graphics_pipeline pipeline.pl_id).1 with
            | StateCacherOutcome.NeedChange => [Cmd.bindPipelineGraphics pipeline.pl_id]
            | StateCacherOutcome.AlreadyOk => [])
        ++ push_constants pipeline.pl_id pipeline.push_ranges
        ++ set_state
            ((b.state_cacher.bind_graphics_pipeline pipeline.pl_id).2.dynamic_state dynamic).1
        ++ descriptor_sets true pipeline.pl_id sets
        ++ vertex_buffers vertices.vertex_buffers
        ++ [Cmd.drawIndirectCmd indb.buf_id indb.len 16] } := by
  simp [AutoCommandBufferBuilder.draw_indirect, hctx, hdyn, hpc, hsets,
    check_vertex_buffers, hv]

/-- Unconditional re-emission by the draw family: every successful variant appends a
command segment containing exactly one descriptor-set bind and exactly one
vertex-buffer bind (never skipped by the cache), together with exactly one draw-type
command whose counts come from the validated operation descriptors. -/
def DrawAlwaysEmits (b : AutoCommandBufferBuilder) (pipeline : GraphicsPipeline)
    (dynamic : DynamicState) (vertices : VertexSourceData) (ib : IndexBuffer)
    (indb : IndirectBuffer) (sets : List DescriptorSet) (constants : PushConstants) :
    Prop :=
  (∃ b2 tail, b.draw pipeline dynamic vertices sets constants = RecResult.ok b2 ∧
    b2.trace = b.trace ++ tail ∧
    tail.countP isBindDescriptorSets = 1 ∧
    tail.countP isBindVertexBuffers = 1 ∧
    tail.countP isDraw = 1 ∧
    Cmd.bindDescriptorSetsCmd true pipeline.pl_id (sets.map DescriptorSet.set_id) ∈ tail ∧
    Cmd.bindVertexBuffersCmd vertices.vertex_buffers ∈ tail ∧
    Cmd.drawCmd vertices.vertex_count vertices.instance_count 0 0 ∈ tail) ∧
  (∃ b2 tail, b.draw_indexed pipeline dynamic vertices ib sets constants
      = RecResult.ok b2 ∧
    b2.trace = b.trace ++ tail ∧
    tail.countP isBindDescriptorSets = 1 ∧
    tail.countP isBindVertexBuffers = 1 ∧
    tail.countP isDrawIndexed = 1 ∧
    Cmd.bindDescriptorSetsCmd true pipeline.pl_id (sets.map DescriptorSet.set_id) ∈ tail ∧
    Cmd.bindVertexBuffersCmd vertices.vertex_buffers ∈ tail ∧
    Cmd.drawIndexedCmd ib.len 1 0 0 0 ∈ tail) ∧
  (∃ b2 tail, b.draw_indirect pipeline dynamic vertices indb sets constants
      = RecResult.ok b2 ∧
    b2.trace = b.trace ++ tail ∧
    tail.countP isBindDescriptorSets = 1 ∧
    tail.countP isBindVertexBuffers = 1 ∧
    tail.countP isDrawIndirect = 1 ∧
    Cmd.bindDescriptorSetsCmd true pipeline.pl_id (sets.map DescriptorSet.set_id) ∈ tail ∧
    Cmd.bindVertexBuffersCmd vertices.vertex_buffers ∈ tail ∧
    Cmd.drawIndirectCmd indb.buf_id indb.len 16 ∈ tail)

/-- C6: for every successful `draw`, `draw_indexed` or `draw_indirect` call, the
descriptor sets and vertex buffers are forwarded to the encoder on that call
unconditionally (never skipped by the cache), and exactly one draw command is emitted
whose counts come from the validated operation descriptors: vertex and instance counts
from vertex-buffer validation for `draw`, index count from index-buffer validation for
`draw_indexed`, and the indirect buffer's length for `draw_indirect`. -/
theorem C6_draw_always_emits (b : AutoCommandBufferBuilder) (pipeline : GraphicsPipeline)
    (dynamic : DynamicState) (vertices : VertexSourceData) (ib : IndexBuffer)
    (indb : IndirectBuffer) (sets : List DescriptorSet) (constants : PushConstants)
    (hctx : b.ensure_inside_render_pass false = Except.ok ())
    (hdyn : check_dynamic_state_validity pipeline dynamic = Except.ok ())
    (hpc : check_push_constants_validity pipeline.push_ranges constants = Except.ok ())
    (hsets : check_descriptor_sets_validity pipeline.set_layouts sets = Except.ok ())
    (hv : vertices.valid = true) (hib : ib.valid = true) :
    DrawAlwaysEmits b pipeline dynamic vertices ib indb sets constants := by
  refine ⟨?_, ?_, ?_⟩
  · refine ⟨_, (match (b.state_cacher.bind_graphics_pipeline pipeline.pl_id).1 with
        | StateCacherOutcome.NeedChange => [Cmd.bindPipelineGraphics pipeline.pl_id]
        | StateCacherOutcome.AlreadyOk => [])
      ++ push_constants pipeline.pl_id pipeline.push_ranges
      ++ set_state
          ((b.state_cacher.bind_graphics_pipeline pipeline.pl_id).2.dynamic_state dynamic).1
      ++ descriptor_sets true pipeline.pl_id sets
      ++ vertex_buffers vertices.vertex_buffers
      ++ [Cmd.drawCmd vertices.vertex_count vertices.instance_count 0 0],
      draw_ok b pipeline dynamic vertices sets constants hctx hdyn hpc hsets hv,
      by simp [List.append_assoc], ?_, ?_, ?_, ?_, ?_, ?_⟩ <;>
      rcases hoc : (b.state_cacher.bind_graphics_pipeline pipeline.pl_id).1 with _ | _ <;>
        simp [hoc, List.countP_append, List.countP_cons, descriptor_sets, vertex_buffers,
          isBindDescriptorSets, isBindVertexBuffers, isDraw,
          countP_push_constants_eq_zero isBindDescriptorSets (fun _ _ _ _ => rfl),
          countP_push_constants_eq_zero isBindVertexBuffers (fun _ _ _ _ => rfl),
          countP_push_constants_eq_zero isDraw (fun _ _ _ _ => rfl),
          countP_set_state_eq_zero isBindDescriptorSets
            (fun _ => rfl) (fun _ _ => rfl) (fun _ _ => rfl),
          countP_set_state_eq_zero isBindVertexBuffers
            (fun _ => rfl) (fun _ _ => rfl) (fun _ _ => rfl),
          countP_set_state_eq_zero isDraw (fun _ => rfl) (fun _ _ => rfl) (fun _ _ => rfl)]
  · refine ⟨_, (match (b.state_cacher.bind_graphics_pipeline pipeline.pl_id).1 with
        | StateCacherOutcome.NeedChange => [Cmd.bindPipelineGraphics pipeline.pl_id]
        | StateCacherOutcome.AlreadyOk => [])
      ++ (match ((b.state_cacher.bind_graphics_pipeline pipeline.pl_id).2.bind_index_buffer
            ib.buf_id ib.index_ty).1 with
          | StateCacherOutcome.NeedChange =>
            [Cmd.bindIndexBufferCmd ib.buf_id ib.index_ty]
          | StateCacherOutcome.AlreadyOk => [])
      ++ push_constants pipeline.pl_id pipeline.push_ranges
      ++ set_state
          (((b.state_cacher.bind_graphics_pipeline pipeline.pl_id).2.bind_index_buffer
              ib.buf_id ib.index_ty).2.dynamic_state dynamic).1
      ++ descriptor_sets true pipeline.pl_id sets
      ++ vertex_buffers vertices.vertex_buffers
      ++ [Cmd.drawIndexedCmd ib.len 1 0 0 0],
      draw_indexed_ok b pipeline dynamic vertices ib sets constants hctx hib hdyn hpc
        hsets hv,
      by simp [List.append_assoc], ?_, ?_, ?_, ?_, ?_, ?_⟩ <;>
      rcases hoc : (b.state_cacher.bind_graphics_pipeline pipeline.pl_id).1 with _ | _ <;>
        rcases hoi : ((b.state_cacher.bind_graphics_pipeline pipeline.pl_id).2.bind_index_buffer
            ib.buf_id ib.index_ty).1 with _ | _ <;>
          simp [hoc, hoi, List.countP_append, List.countP_cons, descriptor_sets,
            vertex_buffers, isBindDescriptorSets, isBindVertexBuffers, isDrawIndexed,
            countP_push_constants_eq_zero isBindDescriptorSets (fun _ _ _ _ => rfl),
            countP_push_constants_eq_zero isBindVertexBuffers (fun _ _ _ _ => rfl),
            countP_push_constants_eq_zero isDrawIndexed (fun _ _ _ _ => rfl),
            countP_set_state_eq_zero isBindDescriptorSets
              (fun _ => rfl) (fun _ _ => rfl) (fun _ _ => rfl),
            countP_set_state_eq_zero isBindVertexBuffers
              (fun _ => rfl) (fun _ _ => rfl) (fun _ _ => rfl),
            countP_set_state_eq_zero isDrawIndexed
              (fun _ => rfl) (fun _ _ => rfl) (fun _ _ => rfl)]
  · refine ⟨_, (match (b.state_cacher.bind_graphics_pipeline pipeline.pl_id).1 with
        | StateCacherOutcome.NeedChange => [Cmd.bindPipelineGraphics pipeline.pl_id]
        | StateCacherOutcome.AlreadyOk => [])
      ++ push_constants pipeline.pl_id pipeline.push_ranges
      ++ set_state
          ((b.state_cacher.bind_graphics_pipeline pipeline.pl_id).2.dynamic_state dynamic).1
      ++ descriptor_sets true pipeline.pl_id sets
      ++ vertex_buffers vertices.vertex_buffers
      ++ [Cmd.drawIndirectCmd indb.buf_id indb.len 16],
      draw_indirect_ok b pipeline dynamic vertices indb sets constants hctx hdyn hpc
        hsets hv,
      by simp [List.append_assoc], ?_, ?_, ?_, ?_, ?_, ?_⟩ <;>
      rcases hoc : (b.state_cacher.bind_graphics_pipeline pipeline.pl_id).1 with _ | _ <;>
        simp [hoc, List.countP_append, List.countP_cons, descriptor_sets, vertex_buffers,
          isBindDescriptorSets, isBindVertexBuffers, isDrawIndirect,
          countP_push_constants_eq_zero isBindDescriptorSets (fun _ _ _ _ => rfl),
          countP_push_constants_eq_zero isBindVertexBuffers (fun _ _ _ _ => rfl),
          countP_push_constants_eq_zero isDrawIndirect (fun _ _ _ _ => rfl),
          countP_set_state_eq_zero isBindDescriptorSets
            (fun _ => rfl) (fun _ _ => rfl) (fun _ _ => rfl),
          countP_set_state_eq_zero isBindVertexBuffers
            (fun _ => rfl) (fun _ _ => rfl) (fun _ _ => rfl),
          countP_set_state_eq_zero isDrawIndirect
            (fun _ => rfl) (fun _ _ => rfl) (fun _ _ => rfl)]

/-- Witness for C6: concrete valid draw parameters on a recorder inside an inline
subpass. -/
theorem C6_draw_always_emits_witness :
    ({ AutoCommandBufferBuilder.new with
        subpasses_remaining := some 1 } :
      AutoCommandBufferBuilder).ensure_inside_render_pass false = Except.ok () ∧
    check_dynamic_state_validity
      (GraphicsPipeline.mk 1 [some (PushRange.mk 1 0 4)] [10] (fun _ => true))
      (DynamicState.mk (some 2) none none) = Except.ok () ∧
    check_push_constants_validity
      (GraphicsPipeline.mk 1 [some (PushRange.mk 1 0 4)] [10] (fun _ => true)).push_ranges
      (PushConstants.mk 4) = Except.ok () ∧
    check_descriptor_sets_validity
      (GraphicsPipeline.mk 1 [some (PushRange.mk 1 0 4)] [10] (fun _ => true)).set_layouts
      [DescriptorSet.mk 20 10] = Except.ok () ∧
    (VertexSourceData.mk [30] 3 1 true).valid = true ∧
    (IndexBuffer.mk 40 IndexType.U16 5 true).valid = true ∧
    DrawAlwaysEmits { AutoCommandBufferBuilder.new with subpasses_remaining := some 1 }
      (GraphicsPipeline.mk 1 [some (PushRange.mk 1 0 4)] [10] (fun _ => true))
      (DynamicState.mk (some 2) none none) (VertexSourceData.mk [30] 3 1 true)
      (IndexBuffer.mk 40 IndexType.U16 5 true) (IndirectBuffer.mk 50 2)
      [DescriptorSet.mk 20 10] (PushConstants.mk 4) :=
  ⟨rfl, rfl, rfl, rfl, rfl, rfl,
    C6_draw_always_emits { AutoCommandBufferBuilder.new with subpasses_remaining := some 1 }
      (GraphicsPipeline.mk 1 [some (PushRange.mk 1 0 4)] [10] (fun _ => true))
      (DynamicState.mk (some 2) none none) (VertexSourceData.mk [30] 3 1 true)
      (IndexBuffer.mk 40 IndexType.U16 5 true) (IndirectBuffer.mk 50 2)
      [DescriptorSet.mk 20 10] (PushConstants.mk 4)
      rfl rfl rfl rfl rfl rfl⟩

end Vulkano
